import Mathlib

/-!
Verification of the pyglobegl frontend widget (src/frontend/src/index.ts):
a shallow embedding of the configuration reconciler, the patch / prop
message bridge, the hover-binding registry and the responsive layout
controller, together with proofs of the specified properties.

Modelling conventions:
* JS values are modelled by the inductive type `JVal`; numbers are
  rationals (NaN / Infinity cannot appear in the JSON host protocol).
* JS objects are insertion-ordered association lists with unique keys.
* Stateful accessor calls on the externally-owned globe render target are
  modelled as updates to a total map `String → JVal` plus an invocation
  log; DOM style assignments become explicit record fields.
* Rows and arrays are modelled as values (no heap aliasing).
-/

namespace PyGlobeGL

/-- JavaScript values as exchanged between the host model, the widget and
the globe render target.  Arrays carry their element list plus the extra
named properties JS allows on array objects (used by
`normalizeParticlesData`, which sets shared fields onto the nested
`particles` array).  `material` / `texture` model constructed three.js
objects: a constructed material exposes its class name under `type` and
the `isMaterial` marker flag, a loaded texture the `isTexture` marker,
mirroring the three.js API.  `tileGen` and `constFn` model the two
function values the widget itself constructs and hands to accessors. -/
inductive JVal : Type where
  | undefined : JVal
  | jnull : JVal
  | bool (b : Bool) : JVal
  | num (q : ℚ) : JVal
  | str (s : String) : JVal
  | arr (elems : List JVal) (props : List (String × JVal)) : JVal
  | obj (fields : List (String × JVal)) : JVal
  | material (ty : String) (params : JVal) : JVal
  | texture (src : String) : JVal
  | tileGen (template : String) : JVal
  | constFn (v : JVal) : JVal

/-- JS nullish test (`value === undefined || value === null`, the values
the `??` operator replaces). -/
def JVal.isNullish : JVal → Bool
  | .undefined => true
  | .jnull => true
  | _ => false

/-- JS truthiness.  `undefined`, `null`, `false`, `0` and `""` are falsy;
every object (including arrays, materials, textures) and every function
is truthy. -/
def JVal.isTruthy : JVal → Bool
  | .undefined => false
  | .jnull => false
  | .bool b => b
  | .num q => if q = 0 then false else true
  | .str s => if s = "" then false else true
  | _ => true

/-- `typeof v === "object" && v` — a truthy object (arrays, plain objects
and constructed library objects; `null` is excluded by truthiness, and
functions have `typeof === "function"`). -/
def JVal.isObjectLike : JVal → Bool
  | .arr _ _ => true
  | .obj _ => true
  | .material _ _ => true
  | .texture _ => true
  | _ => false

/-- `v ?? d` — nullish coalescing. -/
def JVal.orElse (v d : JVal) : JVal :=
  if v.isNullish then d else v

mutual

/-- The JS `String(·)` coercion, on the fragment of values that occur as
row ids and object keys.  Integer numbers print exactly as in JS;
non-integral rationals are rendered as `num/den` (such ids do not occur in
the host protocol, which only ships integer or string ids).  Arrays join
their elements with `","` (nullish elements becoming empty), plain objects
and constructed library objects stringify to `"[object Object]"`. -/
def JVal.jsToString : JVal → String
  | .undefined => "undefined"
  | .jnull => "null"
  | .bool b => if b then "true" else "false"
  | .num q => if q.den = 1 then toString q.num else toString q.num ++ "/" ++ toString q.den
  | .str s => s
  | .arr elems _ => String.intercalate "," (JVal.jsToStringList elems)
  | .obj _ => "[object Object]"
  | .material _ _ => "[object Object]"
  | .texture _ => "[object Object]"
  | .tileGen _ => "function"
  | .constFn _ => "function"

/-- Array join stringifies each element, with nullish elements empty. -/
def JVal.jsToStringList : List JVal → List String
  | [] => []
  | .undefined :: rest => "" :: JVal.jsToStringList rest
  | .jnull :: rest => "" :: JVal.jsToStringList rest
  | v :: rest => v.jsToString :: JVal.jsToStringList rest

end

/-- Property read `v[k]`, yielding `undefined` when the key is missing.
Constructed materials expose `type` (their class name) and the
`isMaterial` marker; textures expose `isTexture`; a material instance has
no `params` property (constructor arguments are not retained). -/
def JVal.getField (v : JVal) (k : String) : JVal :=
  match v with
  | .obj fields => ((fields.lookup k).getD .undefined)
  | .arr _ props => ((props.lookup k).getD .undefined)
  | .material ty _ =>
      if k = "type" then .str ty
      else if k = "isMaterial" then .bool true
      else .undefined
  | .texture _ => if k = "isTexture" then .bool true else .undefined
  | _ => .undefined

/-- The JS `k in v` test on object-like values (modelled over the
properties the source reads). -/
def JVal.hasField (v : JVal) (k : String) : Bool :=
  match v with
  | .obj fields => fields.any (fun p => p.1 = k)
  | .arr _ props => props.any (fun p => p.1 = k)
  | .material _ _ => k = "type" || k = "isMaterial"
  | .texture _ => k = "isTexture"
  | _ => false

/-- JS property write semantics on an insertion-ordered field list:
an existing key keeps its position and receives the new value, a fresh
key is appended at the end. -/
def setField (fields : List (String × JVal)) (k : String) (v : JVal) :
    List (String × JVal) :=
  if fields.any (fun p => p.1 = k) then
    fields.map (fun p => if p.1 = k then (k, v) else p)
  else
    fields ++ [(k, v)]

/-- `Object.assign(target, patch)`: copy every own field of the patch onto
the target in order (shallow merge). -/
def mergeFields (target patch : List (String × JVal)) : List (String × JVal) :=
  patch.foldl (fun acc p => setField acc p.1 p.2) target

/-! ## Materials and textures (src/frontend/src/index.ts lines 216-272)

The three.js namespace is an excluded external collaborator; it is
modelled as a black box exposing constructors by name (`threeCtor`) whose
invocation yields a constructed material value. -/

/-- Names under the external `THREE` namespace for which
`typeof THREE[name] === "function"` holds (the material / loader
constructors the widget can reach).  The namespace is external to this
repository and modelled as a fixed set of constructor names. -/
def threeCtor (name : String) : Bool :=
  name ∈ ["Material", "MeshBasicMaterial", "MeshStandardMaterial",
    "MeshLambertMaterial", "MeshPhongMaterial", "MeshNormalMaterial",
    "MeshDepthMaterial", "MeshToonMaterial", "MeshPhysicalMaterial",
    "MeshMatcapMaterial", "LineBasicMaterial", "LineDashedMaterial",
    "SpriteMaterial", "PointsMaterial", "ShadowMaterial",
    "RawShaderMaterial", "ShaderMaterial", "Texture", "TextureLoader"]

/-- `buildMaterial` (index.ts 216-235): a non-object or an object without
a `type` property passes through; otherwise the `type` is looked up in
the THREE namespace (property keys coerce through `String(·)`) and, if it
names a constructor, a material is newly constructed from
`params ?? {}`; a `type` that resolves to no constructor passes the spec
through. -/
def buildMaterial (spec : JVal) : JVal :=
  if !spec.isObjectLike then spec
  else if !(spec.hasField "type") then spec
  else
    let tyKey := (spec.getField "type").jsToString
    if threeCtor tyKey then
      .material tyKey ((spec.getField "params").orElse (.obj []))
    else spec

/-- `isMaterial` (index.ts 237-241): a truthy object carrying the
`isMaterial` marker flag equal to `true`. -/
def isMaterialVal (v : JVal) : Bool :=
  v.isObjectLike && v.hasField "isMaterial" &&
    (match v.getField "isMaterial" with
     | .bool true => true
     | _ => false)

/-- `isTexture` (index.ts 243-247). -/
def isTextureVal (v : JVal) : Bool :=
  v.isObjectLike && v.hasField "isTexture" &&
    (match v.getField "isTexture" with
     | .bool true => true
     | _ => false)

/-- `materialFromSpec` (index.ts 249-257): falsy values and
already-constructed materials pass through; anything else goes through
`buildMaterial`. -/
def materialFromSpec (v : JVal) : JVal :=
  if !v.isTruthy then v
  else if isMaterialVal v then v
  else buildMaterial v

/-- `textureFromSpec` (index.ts 261-272): falsy values and
already-loaded textures pass through, a string is loaded through the
texture loader, anything else passes through. -/
def textureFromSpec (v : JVal) : JVal :=
  if !v.isTruthy then v
  else if isTextureVal v then v
  else
    match v with
    | .str s => .texture s
    | _ => v

/-- `normalizeTilesData` (index.ts 969-984): absent / null data becomes
`[]`; each object row is copied with its `material` field resolved
through `materialFromSpec` (spread keeps the original key order, a
missing `material` key is appended carrying `undefined`); non-object
rows pass through.  An array row spreads to a plain object keyed by
element index, as the JS object spread does. -/
def normalizeTilesData (data : JVal) : JVal :=
  if !data.isTruthy then .arr [] []
  else
    match data with
    | .arr elems _ =>
        .arr (elems.map fun entry =>
          match entry with
          | .obj fields =>
              .obj (setField fields "material"
                (materialFromSpec ((fields.lookup "material").getD .undefined)))
          | .arr xs props =>
              .obj (setField
                ((xs.enum.map fun p => (toString p.1, p.2)) ++ props)
                "material"
                (materialFromSpec ((props.lookup "material").getD .undefined)))
          | other => other) []
    | other => other

/-- `normalizeParticlesData` (index.ts 986-1019): absent / null data
becomes `[]`; array rows pass through; an object row with a nested
`particles` array yields that array object with every other field of the
row written onto it as a named property (`texture` resolved through
`textureFromSpec`); any other object row is copied with its `texture`
field resolved.  Non-object rows pass through. -/
def normalizeParticlesData (data : JVal) : JVal :=
  if !data.isTruthy then .arr [] []
  else
    match data with
    | .arr elems _ =>
        .arr (elems.map fun entry =>
          match entry with
          | .arr xs props => .arr xs props
          | .obj fields =>
              match fields.lookup "particles" with
              | some (.arr list listProps) =>
                  .arr list (fields.foldl (fun ps p =>
                    if p.1 = "particles" then ps
                    else setField ps p.1
                      (if p.1 = "texture" then textureFromSpec p.2 else p.2))
                    listProps)
              | _ =>
                  .obj (setField fields "texture"
                    (textureFromSpec ((fields.lookup "texture").getD .undefined)))
          | other => other) []
    | other => other

/-! ## Patch by id (`patchLayerData`, index.ts 932-967)

The JS code reads the layer's current array, builds a `Map` from
stringified row id to the row (rows whose `id` is `undefined` or `null`
are filtered out; on duplicate keys the `Map` constructor keeps the last
entry), then for each object patch with a non-nullish `id` shallow-merges
the patch onto the mapped row in place, and writes the array back.  Rows
are modelled as values, so the identity index becomes an index into the
array: `lastIndexOf` is the position of the row the `Map` would hold. -/

/-- The index key a row contributes: its stringified `id`, or `none` when
the row has no `id` or a nullish one (or is not an object, in which case
the id read yields `undefined`). -/
def rowKey (row : JVal) : Option String :=
  match row with
  | .obj fields =>
      match fields.lookup "id" with
      | some .undefined => none
      | some .jnull => none
      | some v => some v.jsToString
      | none => none
  | .arr _ props =>
      match props.lookup "id" with
      | some .undefined => none
      | some .jnull => none
      | some v => some v.jsToString
      | none => none
  | _ => none

/-- Position of the row the identity `Map` associates to `key`: the last
row of the array whose `rowKey` is `key`. -/
def lastIndexOf : List JVal → String → Option Nat
  | [], _ => none
  | row :: rest, key =>
      match lastIndexOf rest key with
      | some i => some (i + 1)
      | none => if rowKey row = some key then some 0 else none

/-- Own enumerable fields of a value, in JS enumeration order (array
elements appear under their index key, then the named properties). -/
def ownFields : JVal → List (String × JVal)
  | .obj fields => fields
  | .arr xs props => (xs.enum.map fun p => (toString p.1, p.2)) ++ props
  | _ => []

/-- The patch id, when the patch passes the loop's
`typeof patch === "object"` guard (`null` does not) and carries a
non-nullish `id`; otherwise the patch is skipped. -/
def patchId (patch : JVal) : Option JVal :=
  match patch with
  | .obj _ | .arr _ _ =>
      match (ownFields patch).lookup "id" with
      | some .undefined => none
      | some .jnull => none
      | some v => some v
      | none => none
  | _ => none

/-- The array position a patch resolves to through the identity index
(`index.get(String(patchId))`). -/
def patchTarget (data : List JVal) (patch : JVal) : Option Nat :=
  match patchId patch with
  | none => none
  | some pid => lastIndexOf data pid.jsToString

/-- `Object.assign(row, patch)` as a value: object rows merge into their
field list, array rows receive the patch's fields as named properties
(writes to numeric keys of array rows do not occur in the protocol and
are folded into the property list with the rest). -/
def mergeInto (row : JVal) (patchFields : List (String × JVal)) : JVal :=
  match row with
  | .obj fields => .obj (mergeFields fields patchFields)
  | .arr xs props => .arr xs (mergeFields props patchFields)
  | other => other

/-- One iteration of the patch loop: an unresolvable patch leaves the
array untouched, a resolved one shallow-merges the patch's fields onto
the indexed row.  The index was built from the original array, so the
target position is fixed even while rows mutate. -/
def patchStep (data : List JVal) (cur : List JVal) (patch : JVal) : List JVal :=
  match patchTarget data patch with
  | some i =>
      match cur[i]? with
      | some row => cur.set i (mergeInto row (ownFields patch))
      | none => cur
  | none => cur

/-- `patchLayerData` on the array value: fold the patch loop over the
patch batch, with the identity index fixed from the incoming array. -/
def applyPatches (data : List JVal) (patches : List JVal) : List JVal :=
  patches.foldl (patchStep data) data

/-! ## Widget state

The externally-owned globe render target exposes one chainable accessor
per visual property; its setter calls are modelled as updates to a total
map `acc : String → JVal` plus an append-only invocation log.  The DOM
style assignments the widget performs (mount div, host element) and the
resize-observer handle become explicit fields. -/

/-- The mutable state the widget acts on: the render target's accessor
values and invocation log, the mount / host element style fields touched
by sizing, the single optional resize-observer handle, and the tile
cache-clear invocation count. -/
structure WState where
  acc : String → JVal
  calls : List (String × JVal)
  mountW : Option ℚ
  mountH : Option ℚ
  elH : Option ℚ
  elWidth100 : Bool
  elMargin0 : Bool
  observer : Bool
  clearCacheCount : Nat

/-- An accessor setter call `globe.name(v)`: record the value and log the
invocation. -/
def applyAcc (name : String) (v : JVal) (s : WState) : WState :=
  { s with
    acc := fun k => if k = name then v else s.acc k
    calls := s.calls ++ [(name, v)] }

/-- A batch of accessor writes, applied left to right. -/
abbrev Writes : Type := List (String × JVal)

/-- Apply a write batch to the state. -/
def applyWritesS (w : Writes) (s : WState) : WState :=
  List.foldl (fun st p => applyAcc p.1 p.2 st) s w

/-- Apply a write batch to an accessor map alone. -/
def applyWritesF (w : Writes) (a : String → JVal) : String → JVal :=
  List.foldl (fun m p => fun k => if k = p.1 then p.2 else m k) a w

/-- The value the last write to `k` in the batch carries, if any. -/
def lastVal : Writes → String → Option JVal
  | [], _ => none
  | p :: rest, k =>
      match lastVal rest k with
      | some v => some v
      | none => if p.1 = k then some p.2 else none

/-! ## Configuration snapshot (index.ts 14-214)

Each section mirrors the corresponding TypeScript type; an optional field
holds `none` when the key is absent from the JSON snapshot (JS
`undefined`) and `some v` when present, where `v` may be `JVal.jnull`.
JSON cannot encode `undefined`, so a present field never holds it. -/

structure GlobeLayoutConfig where
  width : Option JVal := none
  height : Option JVal := none
  globeOffset : Option JVal := none
  backgroundColor : Option JVal := none
  backgroundImageUrl : Option JVal := none

structure GlobeLayerConfig where
  globeImageUrl : Option JVal := none
  bumpImageUrl : Option JVal := none
  globeTileEngineUrl : Option (Option String) := none
  showGlobe : Option JVal := none
  showGraticules : Option JVal := none
  showAtmosphere : Option JVal := none
  atmosphereColor : Option JVal := none
  atmosphereAltitude : Option JVal := none
  globeCurvatureResolution : Option JVal := none
  globeMaterial : Option JVal := none

structure PointsLayerConfig where
  pointsData : Option JVal := none
  pointLabel : Option JVal := none
  pointLat : Option JVal := none
  pointLng : Option JVal := none
  pointColor : Option JVal := none
  pointAltitude : Option JVal := none
  pointRadius : Option JVal := none
  pointResolution : Option JVal := none
  pointsMerge : Option JVal := none
  pointsTransitionDuration : Option JVal := none

structure ArcsLayerConfig where
  arcsData : Option JVal := none
  arcLabel : Option JVal := none
  arcStartLat : Option JVal := none
  arcStartLng : Option JVal := none
  arcStartAltitude : Option JVal := none
  arcEndLat : Option JVal := none
  arcEndLng : Option JVal := none
  arcEndAltitude : Option JVal := none
  arcColor : Option JVal := none
  arcAltitude : Option JVal := none
  arcAltitudeAutoScale : Option JVal := none
  arcStroke : Option JVal := none
  arcCurveResolution : Option JVal := none
  arcCircularResolution : Option JVal := none
  arcDashLength : Option JVal := none
  arcDashGap : Option JVal := none
  arcDashInitialGap : Option JVal := none
  arcDashAnimateTime : Option JVal := none
  arcsTransitionDuration : Option JVal := none

structure PolygonsLayerConfig where
  polygonsData : Option JVal := none
  polygonLabel : Option JVal := none
  polygonGeoJsonGeometry : Option JVal := none
  polygonCapColor : Option JVal := none
  polygonCapMaterial : Option JVal := none
  polygonSideColor : Option JVal := none
  polygonSideMaterial : Option JVal := none
  polygonStrokeColor : Option JVal := none
  polygonAltitude : Option JVal := none
  polygonCapCurvatureResolution : Option JVal := none
  polygonsTransitionDuration : Option JVal := none

structure PathsLayerConfig where
  pathsData : Option JVal := none
  pathLabel : Option JVal := none
  pathResolution : Option JVal := none
  pathColor : Option JVal := none
  pathStroke : Option JVal := none
  pathDashLength : Option JVal := none
  pathDashGap : Option JVal := none
  pathDashInitialGap : Option JVal := none
  pathDashAnimateTime : Option JVal := none
  pathTransitionDuration : Option JVal := none

structure HeatmapsLayerConfig where
  heatmapsData : Option JVal := none
  heatmapPoints : Option JVal := none
  heatmapPointLat : Option JVal := none
  heatmapPointLng : Option JVal := none
  heatmapPointWeight : Option JVal := none
  heatmapBandwidth : Option JVal := none
  heatmapColorFn : Option JVal := none
  heatmapColorSaturation : Option JVal := none
  heatmapBaseAltitude : Option JVal := none
  heatmapTopAltitude : Option JVal := none
  heatmapsTransitionDuration : Option JVal := none

structure HexedPolygonsLayerConfig where
  hexPolygonsData : Option JVal := none
  hexPolygonGeoJsonGeometry : Option JVal := none
  hexPolygonColor : Option JVal := none
  hexPolygonAltitude : Option JVal := none
  hexPolygonResolution : Option JVal := none
  hexPolygonMargin : Option JVal := none
  hexPolygonUseDots : Option JVal := none
  hexPolygonCurvatureResolution : Option JVal := none
  hexPolygonDotResolution : Option JVal := none
  hexPolygonsTransitionDuration : Option JVal := none
  hexPolygonLabel : Option JVal := none

structure TilesLayerConfig where
  tilesData : Option JVal := none
  tileLat : Option JVal := none
  tileLng : Option JVal := none
  tileAltitude : Option JVal := none
  tileWidth : Option JVal := none
  tileHeight : Option JVal := none
  tileUseGlobeProjection : Option JVal := none
  tileMaterial : Option JVal := none
  tileCurvatureResolution : Option JVal := none
  tilesTransitionDuration : Option JVal := none
  tileLabel : Option JVal := none

structure ParticlesLayerConfig where
  particlesData : Option JVal := none
  particlesList : Option JVal := none
  particleLat : Option JVal := none
  particleLng : Option JVal := none
  particleAltitude : Option JVal := none
  particlesSize : Option JVal := none
  particlesSizeAttenuation : Option JVal := none
  particlesColor : Option JVal := none
  particlesTexture : Option JVal := none
  particleLabel : Option JVal := none

structure RingsLayerConfig where
  ringsData : Option JVal := none
  ringLat : Option JVal := none
  ringLng : Option JVal := none
  ringAltitude : Option JVal := none
  ringColor : Option JVal := none
  ringResolution : Option JVal := none
  ringMaxRadius : Option JVal := none
  ringPropagationSpeed : Option JVal := none
  ringRepeatPeriod : Option JVal := none

structure LabelsLayerConfig where
  labelsData : Option JVal := none
  labelLat : Option JVal := none
  labelLng : Option JVal := none
  labelAltitude : Option JVal := none
  labelRotation : Option JVal := none
  labelText : Option JVal := none
  labelSize : Option JVal := none
  labelTypeFace : Option JVal := none
  labelColor : Option JVal := none
  labelResolution : Option JVal := none
  labelIncludeDot : Option JVal := none
  labelDotRadius : Option JVal := none
  labelDotOrientation : Option JVal := none
  labelsTransitionDuration : Option JVal := none
  labelLabel : Option JVal := none

structure GlobeViewConfig where
  pointOfView : Option JVal := none
  transitionMs : Option JVal := none

structure GlobeConfig where
  layout : Option GlobeLayoutConfig := none
  globe : Option GlobeLayerConfig := none
  points : Option PointsLayerConfig := none
  arcs : Option ArcsLayerConfig := none
  polygons : Option PolygonsLayerConfig := none
  paths : Option PathsLayerConfig := none
  heatmaps : Option HeatmapsLayerConfig := none
  hexed_polygons : Option HexedPolygonsLayerConfig := none
  tiles : Option TilesLayerConfig := none
  particles : Option ParticlesLayerConfig := none
  rings : Option RingsLayerConfig := none
  labels : Option LabelsLayerConfig := none
  view : Option GlobeViewConfig := none

/-! ## Config reconciler (`applyConfig` and the per-section appliers,
index.ts 1228-1799)

Every section applier is a chain of
`if (section.fieldX !== undefined) globe.fieldX(...)` statements whose
argument depends only on the configuration.  The chain is captured as a
table of `(accessor name, value extractor)` pairs in source order; a
`none` extraction means the guard failed and no call is made. -/

/-- One reconciler table entry. -/
def Extractor : Type := Option GlobeConfig → Option JVal

/-- Plain guarded write: `if (f !== undefined) globe.k(f ?? null)` (with
`null` encoded as `JVal.jnull`, the `?? null` is the identity on present
values; the variants without `?? null` behave identically). -/
def exPlain {σ : Type} (sect : GlobeConfig → Option σ) (f : σ → Option JVal) :
    Extractor :=
  fun c => (c.bind sect).bind f

/-- Truthiness-guarded write used by `applyLayoutProps`
(`if (layout.x) globe.x(layout.x)`). -/
def exTruthy {σ : Type} (sect : GlobeConfig → Option σ) (f : σ → Option JVal) :
    Extractor :=
  fun c => ((c.bind sect).bind f).bind fun v =>
    if v.isTruthy then some v else none

/-- Data-array write: `globe.xData(cfg.xData ?? [])`. -/
def exData {σ : Type} (sect : GlobeConfig → Option σ) (f : σ → Option JVal) :
    Extractor :=
  fun c => ((c.bind sect).bind f).map fun v =>
    if v.isNullish then .arr [] [] else v

/-- Material-resolved write: `globe.k(buildMaterial(cfg.k))`. -/
def exMaterial {σ : Type} (sect : GlobeConfig → Option σ)
    (f : σ → Option JVal) : Extractor :=
  fun c => ((c.bind sect).bind f).map buildMaterial

/-- Normalized tiles data write:
`globe.tilesData(normalizeTilesData(cfg.tilesData))`. -/
def exTilesData : Extractor :=
  fun c => ((c.bind (·.tiles)).bind (·.tilesData)).map normalizeTilesData

/-- Normalized particles data write. -/
def exParticlesData : Extractor :=
  fun c =>
    ((c.bind (·.particles)).bind (·.particlesData)).map normalizeParticlesData

/-- The tile URL template accessor (index.ts 1253-1266): a truthy
template becomes the substituting generator function, an empty or null
template clears the accessor. -/
def exTileEngineUrl : Extractor :=
  fun c => ((c.bind (·.globe)).bind (·.globeTileEngineUrl)).map fun t? =>
    match t? with
    | some t => if t = "" then .jnull else .tileGen t
    | none => .jnull

/-- `applyViewProps` (index.ts 1736-1744): only a truthy `pointOfView`
triggers the call `globe.pointOfView(pov, transitionMs ?? 0)`; the pair
of arguments is recorded as one structured accessor value. -/
def exView : Extractor :=
  fun c => (c.bind (·.view)).bind fun v =>
    match v.pointOfView with
    | some pov =>
        if pov.isTruthy then
          some (.obj [("pov", pov),
            ("ms", ((v.transitionMs.getD .undefined).orElse (.num 0)))])
        else none
    | none => none

/-- The full reconciler table, in the order `applyConfig` runs the
section appliers: layout cosmetics, globe, points, arcs, polygons,
paths, heatmaps, hexed polygons, tiles, particles, rings, labels,
view. -/
def configTable : List (String × Extractor) :=
  [("globeOffset", exTruthy (·.layout) (·.globeOffset)),
   ("backgroundColor", exTruthy (·.layout) (·.backgroundColor)),
   ("backgroundImageUrl", exTruthy (·.layout) (·.backgroundImageUrl)),
   ("globeImageUrl", exPlain (·.globe) (·.globeImageUrl)),
   ("bumpImageUrl", exPlain (·.globe) (·.bumpImageUrl)),
   ("globeTileEngineUrl", exTileEngineUrl),
   ("showGlobe", exPlain (·.globe) (·.showGlobe)),
   ("showGraticules", exPlain (·.globe) (·.showGraticules)),
   ("showAtmosphere", exPlain (·.globe) (·.showAtmosphere)),
   ("atmosphereColor", exPlain (·.globe) (·.atmosphereColor)),
   ("atmosphereAltitude", exPlain (·.globe) (·.atmosphereAltitude)),
   ("globeCurvatureResolution", exPlain (·.globe) (·.globeCurvatureResolution)),
   ("globeMaterial", exMaterial (·.globe) (·.globeMaterial)),
   ("pointsData", exData (·.points) (·.pointsData)),
   ("pointLabel", exPlain (·.points) (·.pointLabel)),
   ("pointLat", exPlain (·.points) (·.pointLat)),
   ("pointLng", exPlain (·.points) (·.pointLng)),
   ("pointColor", exPlain (·.points) (·.pointColor)),
   ("pointAltitude", exPlain (·.points) (·.pointAltitude)),
   ("pointRadius", exPlain (·.points) (·.pointRadius)),
   ("pointResolution", exPlain (·.points) (·.pointResolution)),
   ("pointsMerge", exPlain (·.points) (·.pointsMerge)),
   ("pointsTransitionDuration", exPlain (·.points) (·.pointsTransitionDuration)),
   ("arcsData", exData (·.arcs) (·.arcsData)),
   ("arcLabel", exPlain (·.arcs) (·.arcLabel)),
   ("arcStartLat", exPlain (·.arcs) (·.arcStartLat)),
   ("arcStartLng", exPlain (·.arcs) (·.arcStartLng)),
   ("arcStartAltitude", exPlain (·.arcs) (·.arcStartAltitude)),
   ("arcEndLat", exPlain (·.arcs) (·.arcEndLat)),
   ("arcEndLng", exPlain (·.arcs) (·.arcEndLng)),
   ("arcEndAltitude", exPlain (·.arcs) (·.arcEndAltitude)),
   ("arcColor", exPlain (·.arcs) (·.arcColor)),
   ("arcAltitude", exPlain (·.arcs) (·.arcAltitude)),
   ("arcAltitudeAutoScale", exPlain (·.arcs) (·.arcAltitudeAutoScale)),
   ("arcStroke", exPlain (·.arcs) (·.arcStroke)),
   ("arcCurveResolution", exPlain (·.arcs) (·.arcCurveResolution)),
   ("arcCircularResolution", exPlain (·.arcs) (·.arcCircularResolution)),
   ("arcDashLength", exPlain (·.arcs) (·.arcDashLength)),
   ("arcDashGap", exPlain (·.arcs) (·.arcDashGap)),
   ("arcDashInitialGap", exPlain (·.arcs) (·.arcDashInitialGap)),
   ("arcDashAnimateTime", exPlain (·.arcs) (·.arcDashAnimateTime)),
   ("arcsTransitionDuration", exPlain (·.arcs) (·.arcsTransitionDuration)),
   ("polygonsData", exData (·.polygons) (·.polygonsData)),
   ("polygonLabel", exPlain (·.polygons) (·.polygonLabel)),
   ("polygonGeoJsonGeometry", exPlain (·.polygons) (·.polygonGeoJsonGeometry)),
   ("polygonCapColor", exPlain (·.polygons) (·.polygonCapColor)),
   ("polygonCapMaterial", exMaterial (·.polygons) (·.polygonCapMaterial)),
   ("polygonSideColor", exPlain (·.polygons) (·.polygonSideColor)),
   ("polygonSideMaterial", exMaterial (·.polygons) (·.polygonSideMaterial)),
   ("polygonStrokeColor", exPlain (·.polygons) (·.polygonStrokeColor)),
   ("polygonAltitude", exPlain (·.polygons) (·.polygonAltitude)),
   ("polygonCapCurvatureResolution",
     exPlain (·.polygons) (·.polygonCapCurvatureResolution)),
   ("polygonsTransitionDuration",
     exPlain (·.polygons) (·.polygonsTransitionDuration)),
   ("pathsData", exData (·.paths) (·.pathsData)),
   ("pathLabel", exPlain (·.paths) (·.pathLabel)),
   ("pathResolution", exPlain (·.paths) (·.pathResolution)),
   ("pathColor", exPlain (·.paths) (·.pathColor)),
   ("pathStroke", exPlain (·.paths) (·.pathStroke)),
   ("pathDashLength", exPlain (·.paths) (·.pathDashLength)),
   ("pathDashGap", exPlain (·.paths) (·.pathDashGap)),
   ("pathDashInitialGap", exPlain (·.paths) (·.pathDashInitialGap)),
   ("pathDashAnimateTime", exPlain (·.paths) (·.pathDashAnimateTime)),
   ("pathTransitionDuration", exPlain (·.paths) (·.pathTransitionDuration)),
   ("heatmapsData", exData (·.heatmaps) (·.heatmapsData)),
   ("heatmapPoints", exPlain (·.heatmaps) (·.heatmapPoints)),
   ("heatmapPointLat", exPlain (·.heatmaps) (·.heatmapPointLat)),
   ("heatmapPointLng", exPlain (·.heatmaps) (·.heatmapPointLng)),
   ("heatmapPointWeight", exPlain (·.heatmaps) (·.heatmapPointWeight)),
   ("heatmapBandwidth", exPlain (·.heatmaps) (·.heatmapBandwidth)),
   ("heatmapColorFn", exPlain (·.heatmaps) (·.heatmapColorFn)),
   ("heatmapColorSaturation", exPlain (·.heatmaps) (·.heatmapColorSaturation)),
   ("heatmapBaseAltitude", exPlain (·.heatmaps) (·.heatmapBaseAltitude)),
   ("heatmapTopAltitude", exPlain (·.heatmaps) (·.heatmapTopAltitude)),
   ("heatmapsTransitionDuration",
     exPlain (·.heatmaps) (·.heatmapsTransitionDuration)),
   ("hexPolygonsData", exData (·.hexed_polygons) (·.hexPolygonsData)),
   ("hexPolygonGeoJsonGeometry",
     exPlain (·.hexed_polygons) (·.hexPolygonGeoJsonGeometry)),
   ("hexPolygonColor", exPlain (·.hexed_polygons) (·.hexPolygonColor)),
   ("hexPolygonAltitude", exPlain (·.hexed_polygons) (·.hexPolygonAltitude)),
   ("hexPolygonResolution", exPlain (·.hexed_polygons) (·.hexPolygonResolution)),
   ("hexPolygonMargin", exPlain (·.hexed_polygons) (·.hexPolygonMargin)),
   ("hexPolygonUseDots", exPlain (·.hexed_polygons) (·.hexPolygonUseDots)),
   ("hexPolygonCurvatureResolution",
     exPlain (·.hexed_polygons) (·.hexPolygonCurvatureResolution)),
   ("hexPolygonDotResolution",
     exPlain (·.hexed_polygons) (·.hexPolygonDotResolution)),
   ("hexPolygonsTransitionDuration",
     exPlain (·.hexed_polygons) (·.hexPolygonsTransitionDuration)),
   ("hexPolygonLabel", exPlain (·.hexed_polygons) (·.hexPolygonLabel)),
   ("tilesData", exTilesData),
   ("tileLat", exPlain (·.tiles) (·.tileLat)),
   ("tileLng", exPlain (·.tiles) (·.tileLng)),
   ("tileAltitude", exPlain (·.tiles) (·.tileAltitude)),
   ("tileWidth", exPlain (·.tiles) (·.tileWidth)),
   ("tileHeight", exPlain (·.tiles) (·.tileHeight)),
   ("tileUseGlobeProjection", exPlain (·.tiles) (·.tileUseGlobeProjection)),
   ("tileMaterial", exPlain (·.tiles) (·.tileMaterial)),
   ("tileCurvatureResolution", exPlain (·.tiles) (·.tileCurvatureResolution)),
   ("tilesTransitionDuration", exPlain (·.tiles) (·.tilesTransitionDuration)),
   ("tileLabel", exPlain (·.tiles) (·.tileLabel)),
   ("particlesData", exParticlesData),
   ("particlesList", exPlain (·.particles) (·.particlesList)),
   ("particleLat", exPlain (·.particles) (·.particleLat)),
   ("particleLng", exPlain (·.particles) (·.particleLng)),
   ("particleAltitude", exPlain (·.particles) (·.particleAltitude)),
   ("particlesSize", exPlain (·.particles) (·.particlesSize)),
   ("particlesSizeAttenuation",
     exPlain (·.particles) (·.particlesSizeAttenuation)),
   ("particlesColor", exPlain (·.particles) (·.particlesColor)),
   ("particlesTexture", exPlain (·.particles) (·.particlesTexture)),
   ("particleLabel", exPlain (·.particles) (·.particleLabel)),
   ("ringsData", exData (·.rings) (·.ringsData)),
   ("ringLat", exPlain (·.rings) (·.ringLat)),
   ("ringLng", exPlain (·.rings) (·.ringLng)),
   ("ringAltitude", exPlain (·.rings) (·.ringAltitude)),
   ("ringColor", exPlain (·.rings) (·.ringColor)),
   ("ringResolution", exPlain (·.rings) (·.ringResolution)),
   ("ringMaxRadius", exPlain (·.rings) (·.ringMaxRadius)),
   ("ringPropagationSpeed", exPlain (·.rings) (·.ringPropagationSpeed)),
   ("ringRepeatPeriod", exPlain (·.rings) (·.ringRepeatPeriod)),
   ("labelsData", exData (·.labels) (·.labelsData)),
   ("labelLat", exPlain (·.labels) (·.labelLat)),
   ("labelLng", exPlain (·.labels) (·.labelLng)),
   ("labelAltitude", exPlain (·.labels) (·.labelAltitude)),
   ("labelRotation", exPlain (·.labels) (·.labelRotation)),
   ("labelText", exPlain (·.labels) (·.labelText)),
   ("labelSize", exPlain (·.labels) (·.labelSize)),
   ("labelTypeFace", exPlain (·.labels) (·.labelTypeFace)),
   ("labelColor", exPlain (·.labels) (·.labelColor)),
   ("labelResolution", exPlain (·.labels) (·.labelResolution)),
   ("labelIncludeDot", exPlain (·.labels) (·.labelIncludeDot)),
   ("labelDotRadius", exPlain (·.labels) (·.labelDotRadius)),
   ("labelDotOrientation", exPlain (·.labels) (·.labelDotOrientation)),
   ("labelsTransitionDuration",
     exPlain (·.labels) (·.labelsTransitionDuration)),
   ("labelLabel", exPlain (·.labels) (·.labelLabel)),
   ("pointOfView", exView)]

/-- The write batch a table produces for a configuration, in table
order. -/
def tableWrites (tbl : List (String × Extractor)) (c : Option GlobeConfig) :
    Writes :=
  tbl.foldr (fun e acc =>
    match e.2 c with
    | some v => (e.1, v) :: acc
    | none => acc) []

/-! ## Layout sizing and the responsive resize computation
(index.ts 1151-1226, 1746-1758) -/

/-- `typeof v === "number" && Number.isFinite(v)` — the dimension check
of `applyLayoutSizing` (rationals are always finite). -/
def numOf : Option JVal → Option ℚ
  | some (.num q) => some q
  | _ => none

/-- `applyLayoutSizing` (index.ts 1194-1226): with neither dimension a
finite number, report `false` and touch nothing.  Otherwise apply each
given dimension to the mount / host styles and the render target, then
derive the missing dimension equal to the given one, and report
`true`. -/
def applyLayoutSizing (layout : Option GlobeLayoutConfig) (s : WState) :
    Bool × WState :=
  let w? := numOf (layout.bind (·.width))
  let h? := numOf (layout.bind (·.height))
  match w?, h? with
  | none, none => (false, s)
  | _, _ =>
    let s1 := match w? with
      | some w => applyAcc "width" (.num w) { s with mountW := some w }
      | none => s
    let s2 := match h? with
      | some h =>
          applyAcc "height" (.num h) { s1 with mountH := some h, elH := some h }
      | none => s1
    let s3 := match w?, h? with
      | some w, none =>
          applyAcc "height" (.num w) { s2 with mountH := some w, elH := some w }
      | _, _ => s2
    let s4 := match w?, h? with
      | none, some h => applyAcc "width" (.num h) { s3 with mountW := some h }
      | _, _ => s3
    (true, s4)

/-- The box geometry the resize computation reads from the DOM: the host
element's bounding width, the reference container (the nearest
`.output-area` ancestor, else the parent element; `none` when neither
exists) with its content height, vertical paddings and parsed computed
max-height (`none` when `Number.parseFloat` yields nothing finite, e.g.
`"none"`), and the viewport height. -/
structure ContainerBox where
  clientHeight : ℚ
  paddingTop : ℚ
  paddingBottom : ℚ
  maxHeight : Option ℚ

structure ResizeEnv where
  elWidth : ℚ
  container : Option ContainerBox
  viewportHeight : ℚ

/-- Vertical padding of the reference container
(`paddingTop + paddingBottom`; `0` with no container). -/
def containerPaddingOf (env : ResizeEnv) : ℚ :=
  match env.container with
  | some c => c.paddingTop + c.paddingBottom
  | none => 0

/-- The parsed computed max-height (`0` when not finite or with no
container). -/
def maxHeightOf (env : ResizeEnv) : ℚ :=
  match env.container with
  | some c => c.maxHeight.getD 0
  | none => 0

/-- The container content height, padding-adjusted only when positive. -/
def containerHeightOf (env : ResizeEnv) : ℚ :=
  match env.container with
  | some c =>
      if c.clientHeight > 0 then
        max 0 (c.clientHeight - containerPaddingOf env)
      else c.clientHeight
  | none => 0

/-- The effective available height: the padding-adjusted max-height when
the parsed max-height is positive, else the (padding-adjusted) content
height. -/
def effHeightOf (env : ResizeEnv) : ℚ :=
  if maxHeightOf env > 0 then max 0 (maxHeightOf env - containerPaddingOf env)
  else containerHeightOf env

/-- The square render size the resize computation produces:
`floor(min(width, eff > 0 ? eff : width, vh > 0 ? vh : width) * 0.75)`
floored at zero. -/
def resizeSize (env : ResizeEnv) : ℤ :=
  max 0 ⌊min env.elWidth (min
    (if effHeightOf env > 0 then effHeightOf env else env.elWidth)
    (if env.viewportHeight > 0 then env.viewportHeight else env.elWidth)) *
    (3 / 4 : ℚ)⌋

/-- The `resize` closure (index.ts 1151-1192).  A non-positive bounding
width short-circuits.  Otherwise the computed square size is pushed into
the mount and both render target dimensions, with the host element set
to full width, zero margin and the effective height (or the size when
none is available). -/
def resize (env : ResizeEnv) (s : WState) : WState :=
  if env.elWidth ≤ 0 then s
  else
    let size : ℤ := resizeSize env
    let s1 := { s with
      elWidth100 := true
      elH := some (if effHeightOf env > 0 then effHeightOf env else (size : ℚ))
      elMargin0 := true
      mountW := some (size : ℚ)
      mountH := some (size : ℚ) }
    applyAcc "height" (.num (size : ℚ)) (applyAcc "width" (.num (size : ℚ)) s1)

/-- `enableAutoResize` (index.ts 1746-1753): with an observer already in
place do nothing; otherwise run one synchronous resize and attach the
observer. -/
def enableAutoResize (env : ResizeEnv) (s : WState) : WState :=
  if s.observer then s
  else { resize env s with observer := true }

/-- `disableAutoResize` (index.ts 1755-1758). -/
def disableAutoResize (s : WState) : WState :=
  { s with observer := false }

/-- `applyConfig` (index.ts 1760-1793): sizing first (toggling
auto-resize on its outcome), then every section applier in the fixed
order captured by `configTable`. -/
def applyConfig (env : ResizeEnv) (c : Option GlobeConfig) (s : WState) :
    WState :=
  let sized := applyLayoutSizing (c.bind (·.layout)) s
  let s2 := if sized.1 then disableAutoResize sized.2
            else enableAutoResize env sized.2
  applyWritesS (tableWrites configTable c) s2

/-! ## Inbound message bridge (index.ts 751-930, 1021-1149)

The per-layer allow-lists of settable property names, `applyLayerProp`,
and the `msg:custom` dispatch. -/

def globeProps : List String :=
  ["globeImageUrl", "bumpImageUrl", "globeTileEngineUrl", "showGlobe",
   "showGraticules", "showAtmosphere", "atmosphereColor",
   "atmosphereAltitude", "globeCurvatureResolution", "globeMaterial"]

def pointProps : List String :=
  ["pointLabel", "pointLat", "pointLng", "pointColor", "pointAltitude",
   "pointRadius", "pointResolution", "pointsMerge",
   "pointsTransitionDuration"]

def arcProps : List String :=
  ["arcStartLat", "arcStartLng", "arcStartAltitude", "arcEndLat",
   "arcEndLng", "arcEndAltitude", "arcColor", "arcAltitude",
   "arcAltitudeAutoScale", "arcStroke", "arcCurveResolution",
   "arcCircularResolution", "arcDashLength", "arcDashGap",
   "arcDashInitialGap", "arcDashAnimateTime", "arcsTransitionDuration",
   "arcLabel"]

def polygonProps : List String :=
  ["polygonLabel", "polygonGeoJsonGeometry", "polygonCapColor",
   "polygonCapMaterial", "polygonSideColor", "polygonSideMaterial",
   "polygonStrokeColor", "polygonAltitude",
   "polygonCapCurvatureResolution", "polygonsTransitionDuration"]

def pathProps : List String :=
  ["pathLabel", "pathResolution", "pathColor", "pathStroke",
   "pathDashLength", "pathDashGap", "pathDashInitialGap",
   "pathDashAnimateTime", "pathTransitionDuration"]

def heatmapProps : List String :=
  ["heatmapPoints", "heatmapPointLat", "heatmapPointLng",
   "heatmapPointWeight", "heatmapBandwidth", "heatmapColorFn",
   "heatmapColorSaturation", "heatmapBaseAltitude", "heatmapTopAltitude",
   "heatmapsTransitionDuration"]

def hexPolygonProps : List String :=
  ["hexPolygonGeoJsonGeometry", "hexPolygonColor", "hexPolygonAltitude",
   "hexPolygonResolution", "hexPolygonMargin", "hexPolygonUseDots",
   "hexPolygonCurvatureResolution", "hexPolygonDotResolution",
   "hexPolygonsTransitionDuration", "hexPolygonLabel"]

def tilesProps : List String :=
  ["tileLat", "tileLng", "tileAltitude", "tileWidth", "tileHeight",
   "tileUseGlobeProjection", "tileMaterial", "tileCurvatureResolution",
   "tilesTransitionDuration", "tileLabel"]

def particlesProps : List String :=
  ["particlesList", "particleLat", "particleLng", "particleAltitude",
   "particlesSize", "particlesSizeAttenuation", "particlesColor",
   "particlesTexture", "particleLabel"]

def ringsProps : List String :=
  ["ringLat", "ringLng", "ringAltitude", "ringColor", "ringResolution",
   "ringMaxRadius", "ringPropagationSpeed", "ringRepeatPeriod"]

def labelsProps : List String :=
  ["labelLat", "labelLng", "labelAltitude", "labelRotation", "labelText",
   "labelSize", "labelTypeFace", "labelColor", "labelResolution",
   "labelIncludeDot", "labelDotRadius", "labelDotOrientation",
   "labelsTransitionDuration", "labelLabel"]

def materialProps : List String :=
  ["globeMaterial", "polygonCapMaterial", "polygonSideMaterial"]

def constantAccessorProps : List String :=
  ["hexTopColor", "hexSideColor", "hexAltitude"]

/-- `applyLayerProp` (index.ts 913-930): a non-string or non-allow-listed
property name causes no accessor call; otherwise the accessor named by
the property is invoked (the render target exposes a callable accessor
per property) with the value — material-resolved for the three material
props, wrapped into a constant accessor for the three constant-accessor
props. -/
def applyLayerProp (props : List String) (prop value : JVal) (s : WState) :
    WState :=
  match prop with
  | .str p =>
      if p ∈ props then
        applyAcc p
          (if p ∈ materialProps then buildMaterial value
           else if p ∈ constantAccessorProps then .constFn value
           else value) s
      else s
  | _ => s

/-- An inbound custom message: present `type` and an optional `payload`
key (`none` when the key is absent from the message object; a present
key can hold any value, including `null`). -/
structure Msg where
  type : String
  payload : Option JVal

/-- `payload?.data ?? []`. -/
def dataArg (payload : JVal) : JVal :=
  (payload.getField "data").orElse (.arr [] [])

/-- `payload?.patches ?? []` as the list the patch loop iterates (a
non-array, non-nullish `patches` value would make the JS `for..of`
throw and is outside the modelled domain). -/
def patchesArg (payload : JVal) : List JVal :=
  match (payload.getField "patches").orElse (.arr [] []) with
  | .arr xs _ => xs
  | _ => []

/-- Read a layer's current dataset off the render target
(`globe.xData() ?? []`), keeping the array's named properties. -/
def getDataArr (s : WState) (k : String) : List JVal × List (String × JVal) :=
  match s.acc k with
  | .arr xs props => (xs, props)
  | _ => ([], [])

/-- `<layer>_set_data` for the eight layers that take the payload data
verbatim. -/
def setPlainData (k : String) (payload : JVal) (s : WState) : WState :=
  applyAcc k (dataArg payload) s

/-- `<layer>_patch_data` for the eight plain layers: read, patch, write
the same array back. -/
def patchPlainData (k : String) (payload : JVal) (s : WState) : WState :=
  let cur := getDataArr s k
  applyAcc k (.arr (applyPatches cur.1 (patchesArg payload)) cur.2) s

/-- `<layer>_patch_data` for tiles / particles: the patched array passes
through the layer's normalizer on its way back into the setter. -/
def patchNormData (k : String) (norm : JVal → JVal) (payload : JVal)
    (s : WState) : WState :=
  let cur := getDataArr s k
  applyAcc k (norm (.arr (applyPatches cur.1 (patchesArg payload)) cur.2)) s

/-- The `msg:custom` handler (index.ts 1021-1149).  The cache-clear
command matches on `type` alone; every other branch additionally
requires the `payload` key to be present on the message, then dispatches
on the `type` literal; unknown types fall through with no effect. -/
def handleMessage (m : Msg) (s : WState) : WState :=
  let s1 := if m.type = "globe_tile_engine_clear_cache"
            then { s with clearCacheCount := s.clearCacheCount + 1 }
            else s
  match m.payload with
  | none => s1
  | some payload =>
      if m.type = "points_set_data" then setPlainData "pointsData" payload s1
      else if m.type = "arcs_set_data" then setPlainData "arcsData" payload s1
      else if m.type = "polygons_set_data" then
        setPlainData "polygonsData" payload s1
      else if m.type = "paths_set_data" then setPlainData "pathsData" payload s1
      else if m.type = "heatmaps_set_data" then
        setPlainData "heatmapsData" payload s1
      else if m.type = "hex_polygons_set_data" then
        setPlainData "hexPolygonsData" payload s1
      else if m.type = "tiles_set_data" then
        applyAcc "tilesData" (normalizeTilesData (payload.getField "data")) s1
      else if m.type = "particles_set_data" then
        applyAcc "particlesData"
          (normalizeParticlesData (payload.getField "data")) s1
      else if m.type = "rings_set_data" then setPlainData "ringsData" payload s1
      else if m.type = "labels_set_data" then
        setPlainData "labelsData" payload s1
      else if m.type = "points_patch_data" then
        patchPlainData "pointsData" payload s1
      else if m.type = "arcs_patch_data" then
        patchPlainData "arcsData" payload s1
      else if m.type = "polygons_patch_data" then
        patchPlainData "polygonsData" payload s1
      else if m.type = "paths_patch_data" then
        patchPlainData "pathsData" payload s1
      else if m.type = "heatmaps_patch_data" then
        patchPlainData "heatmapsData" payload s1
      else if m.type = "hex_polygons_patch_data" then
        patchPlainData "hexPolygonsData" payload s1
      else if m.type = "tiles_patch_data" then
        patchNormData "tilesData" normalizeTilesData payload s1
      else if m.type = "particles_patch_data" then
        patchNormData "particlesData" normalizeParticlesData payload s1
      else if m.type = "rings_patch_data" then
        patchPlainData "ringsData" payload s1
      else if m.type = "labels_patch_data" then
        patchPlainData "labelsData" payload s1
      else if m.type = "points_prop" then
        applyLayerProp pointProps (payload.getField "prop")
          (payload.getField "value") s1
      else if m.type = "arcs_prop" then
        applyLayerProp arcProps (payload.getField "prop")
          (payload.getField "value") s1
      else if m.type = "polygons_prop" then
        applyLayerProp polygonProps (payload.getField "prop")
          (payload.getField "value") s1
      else if m.type = "paths_prop" then
        applyLayerProp pathProps (payload.getField "prop")
          (payload.getField "value") s1
      else if m.type = "heatmaps_prop" then
        applyLayerProp heatmapProps (payload.getField "prop")
          (payload.getField "value") s1
      else if m.type = "hex_polygons_prop" then
        applyLayerProp hexPolygonProps (payload.getField "prop")
          (payload.getField "value") s1
      else if m.type = "tiles_prop" then
        applyLayerProp tilesProps (payload.getField "prop")
          (payload.getField "value") s1
      else if m.type = "particles_prop" then
        applyLayerProp particlesProps (payload.getField "prop")
          (payload.getField "value") s1
      else if m.type = "rings_prop" then
        applyLayerProp ringsProps (payload.getField "prop")
          (payload.getField "value") s1
      else if m.type = "labels_prop" then
        applyLayerProp labelsProps (payload.getField "prop")
          (payload.getField "value") s1
      else if m.type = "globe_prop" then
        applyLayerProp globeProps (payload.getField "prop")
          (payload.getField "value") s1
      else s1

/-- The widget state right after mount, before any configuration or
message: no accessor has been driven by this code path (`undefined`
reads), no styles set, no observer. -/
def initState : WState :=
  { acc := fun _ => .undefined
    calls := []
    mountW := none
    mountH := none
    elH := none
    elWidth100 := false
    elMargin0 := false
    observer := false
    clearCacheCount := 0 }

/-- The eight `<layer>_set_data` message types that hand `payload.data`
to the layer's data accessor verbatim (tiles and particles pass through
their normalizers instead). -/
def plainSetTable : List (String × String) :=
  [("points_set_data", "pointsData"), ("arcs_set_data", "arcsData"),
   ("polygons_set_data", "polygonsData"), ("paths_set_data", "pathsData"),
   ("heatmaps_set_data", "heatmapsData"),
   ("hex_polygons_set_data", "hexPolygonsData"),
   ("rings_set_data", "ringsData"), ("labels_set_data", "labelsData")]

/-- The eight `<layer>_patch_data` message types whose setter writes the
patched array back unchanged. -/
def plainPatchTable : List (String × String) :=
  [("points_patch_data", "pointsData"), ("arcs_patch_data", "arcsData"),
   ("polygons_patch_data", "polygonsData"),
   ("paths_patch_data", "pathsData"),
   ("heatmaps_patch_data", "heatmapsData"),
   ("hex_polygons_patch_data", "hexPolygonsData"),
   ("rings_patch_data", "ringsData"), ("labels_patch_data", "labelsData")]

/-- The eleven `<layer>_prop` message types with their allow-lists. -/
def layerPropTable : List (String × List String) :=
  [("points_prop", pointProps), ("arcs_prop", arcProps),
   ("polygons_prop", polygonProps), ("paths_prop", pathProps),
   ("heatmaps_prop", heatmapProps), ("hex_polygons_prop", hexPolygonProps),
   ("tiles_prop", tilesProps), ("particles_prop", particlesProps),
   ("rings_prop", ringsProps), ("labels_prop", labelsProps),
   ("globe_prop", globeProps)]

/-- The left-to-right, non-overlapping scan of JS
`String.prototype.replaceAll`, with enough fuel to consume the string
(each step consumes at least one character, so `s.length` fuel always
suffices; a degenerate empty pattern passes characters through). -/
def replaceAllAux (pat rep : List Char) : List Char → ℕ → List Char
  | s, 0 => s
  | [], _ + 1 => []
  | c :: rest, fuel + 1 =>
      if pat.isPrefixOf (c :: rest) ∧ pat ≠ [] then
        rep ++ replaceAllAux pat rep ((c :: rest).drop pat.length) fuel
      else c :: replaceAllAux pat rep rest fuel

/-- JS `s.replaceAll(pat, rep)` on plain strings. -/
def jsReplaceAll (s pat rep : String) : String :=
  ⟨replaceAllAux pat.data rep.data s.data s.data.length⟩

/-- Calling the generator function the widget installs for a tile URL
template (index.ts 1256-1262): every `\x7bx\x7d` placeholder is replaced
by the stringified x coordinate, every `\x7by\x7d` by y, and every
`\x7bl\x7d` and `\x7bz\x7d` by the level (tile coordinates are integers
and stringify identically in JS and here). -/
def tileGenApply (template : String) (x y l : ℤ) : String :=
  jsReplaceAll (jsReplaceAll (jsReplaceAll (jsReplaceAll template
    "{x}" (toString x)) "{y}" (toString y)) "{l}" (toString l))
    "{z}" (toString l)

/-- The globe section used by the C6 witness: a concrete non-empty tile
URL template. -/
def tileUrlWitnessConfig : GlobeConfig :=
  { globe := some
      { globeTileEngineUrl := some (some "https://tile/{z}/{x}/{y}.png") } }

/-- The globe section used by the C6 witness: a null template. -/
def tileUrlWitnessConfigNull : GlobeConfig :=
  { globe := some { globeTileEngineUrl := some none } }

/-- An already-constructed material (the `isMaterial` marker set,
carrying constructor params). -/
def constructedMaterial : JVal :=
  .material "MeshBasicMaterial" (.obj [("color", .str "red")])

/-- Configuration feeding that constructed material into the
`globeMaterial` slot. -/
def constructedMaterialConfig : GlobeConfig :=
  { globe := some { globeMaterial := some constructedMaterial } }

/-! ## Hover-binding registry (index.ts 393-544)

`maybeBindHoverHandlers` walks the nine layers; for each, when the event
configuration requests that layer's hover and the registry does not yet
mark it bound, it registers the hover listener once and marks the
registry.  `regCount` counts listener registrations per layer (the model
of how many times `globe.onXHover` was invoked). -/

/-- The nine hover-capable layer keys, in the order the handler checks
them. -/
def hoverLayers : List String :=
  ["point", "arc", "polygon", "path", "heatmap", "hexPolygon", "tile",
   "particle", "label"]

structure HoverState where
  bound : String → Bool
  regCount : String → Nat

/-- Registry state created at mount: nothing bound, nothing
registered. -/
def initHover : HoverState :=
  { bound := fun _ => false, regCount := fun _ => 0 }

/-- One per-layer block of `maybeBindHoverHandlers`: bind the hover
listener when requested and not yet bound. -/
def bindLayer (cfg : String → Bool) (l : String) (s : HoverState) :
    HoverState :=
  if cfg (l ++ "Hover") && !s.bound l then
    { bound := fun k => if k = l then true else s.bound k
      regCount := fun k => if k = l then s.regCount k + 1 else s.regCount k }
  else s

/-- `maybeBindHoverHandlers`: the nine guarded blocks in order, reading
the hover-enable flags from the event configuration (`cfg` maps the
`<layer>Hover` key to its flag; a missing key reads `undefined`, i.e.
`false`). -/
def maybeBindHoverHandlers (cfg : String → Bool) (s : HoverState) :
    HoverState :=
  hoverLayers.foldl (fun st l => bindLayer cfg l st) s

/-- The registry state after a mount handles a sequence of
event-configuration snapshots (the initial call plus one call per
`change:event_config` notification). -/
def hoverAfter (cfgs : List (String → Bool)) : HoverState :=
  cfgs.foldl (fun s cfg => maybeBindHoverHandlers cfg s) initHover

/-- Registry invariant: the number of listener registrations for a layer
is `1` exactly when the registry marks it bound, else `0`. -/
def HoverInv (s : HoverState) : Prop :=
  ∀ l, s.regCount l = if s.bound l then 1 else 0

/-! ## Derived write batches

`applyLayoutSizing`, `resize` and `enableAutoResize` are state
transformers; the batches below name the accessor writes each performs,
for the reconciler proofs. -/

/-- Whether the layout supplies an explicit dimension (the boolean
`applyLayoutSizing` reports). -/
def hasExplicitSize (layout : Option GlobeLayoutConfig) : Bool :=
  (numOf (layout.bind (·.width))).isSome ||
    (numOf (layout.bind (·.height))).isSome

/-- The render-target writes `applyLayoutSizing` performs, in call
order. -/
def sizingWrites (layout : Option GlobeLayoutConfig) : Writes :=
  match numOf (layout.bind (·.width)), numOf (layout.bind (·.height)) with
  | none, none => []
  | some w, some h => [("width", .num w), ("height", .num h)]
  | some w, none => [("width", .num w), ("height", .num w)]
  | none, some h => [("height", .num h), ("width", .num h)]

/-- The render-target writes one `resize` run performs. -/
def resizeWrites (env : ResizeEnv) : Writes :=
  if env.elWidth ≤ 0 then []
  else [("width", .num (resizeSize env : ℚ)),
        ("height", .num (resizeSize env : ℚ))]

/-! ## Lemmas: accessor write batches -/

theorem applyWritesS_acc (w : Writes) (s : WState) :
    (applyWritesS w s).acc = applyWritesF w s.acc := by
  induction w generalizing s with
  | nil => rfl
  | cons p rest ih =>
      simp only [applyWritesS, applyWritesF, List.foldl_cons] at *
      exact ih _

theorem applyWritesS_mountW (w : Writes) (s : WState) :
    (applyWritesS w s).mountW = s.mountW := by
  induction w generalizing s with
  | nil => rfl
  | cons p rest ih =>
      simp only [applyWritesS, List.foldl_cons] at *
      exact ih _

theorem applyWritesS_mountH (w : Writes) (s : WState) :
    (applyWritesS w s).mountH = s.mountH := by
  induction w generalizing s with
  | nil => rfl
  | cons p rest ih =>
      simp only [applyWritesS, List.foldl_cons] at *
      exact ih _

theorem applyWritesS_elH (w : Writes) (s : WState) :
    (applyWritesS w s).elH = s.elH := by
  induction w generalizing s with
  | nil => rfl
  | cons p rest ih =>
      simp only [applyWritesS, List.foldl_cons] at *
      exact ih _

theorem applyWritesS_observer (w : Writes) (s : WState) :
    (applyWritesS w s).observer = s.observer := by
  induction w generalizing s with
  | nil => rfl
  | cons p rest ih =>
      simp only [applyWritesS, List.foldl_cons] at *
      exact ih _

theorem applyWritesF_eq (w : Writes) (a : String → JVal) (k : String) :
    applyWritesF w a k = (lastVal w k).getD (a k) := by
  induction w generalizing a with
  | nil => rfl
  | cons p rest ih =>
      simp only [applyWritesF, List.foldl_cons]
      rw [show List.foldl (fun m p => fun k => if k = p.1 then p.2 else m k)
            (fun k => if k = p.1 then p.2 else a k) rest =
          applyWritesF rest (fun k => if k = p.1 then p.2 else a k) from rfl,
        ih]
      show _ = Option.getD (match lastVal rest k with
        | some v => some v
        | none => if p.1 = k then some p.2 else none) (a k)
      cases h : lastVal rest k with
      | some v => simp
      | none =>
          by_cases hp : p.1 = k
          · subst hp; simp
          · have hk : ¬ k = p.1 := fun h => hp h.symm
            simp [hp, hk]

theorem applyWritesF_idem (w : Writes) (a : String → JVal) :
    applyWritesF w (applyWritesF w a) = applyWritesF w a := by
  funext k
  rw [applyWritesF_eq, applyWritesF_eq]
  cases h : lastVal w k <;> simp [h]

theorem applyWritesF_append (w₁ w₂ : Writes) (a : String → JVal) :
    applyWritesF (w₁ ++ w₂) a = applyWritesF w₂ (applyWritesF w₁ a) := by
  simp only [applyWritesF, List.foldl_append]

theorem lastVal_append (w₁ w₂ : Writes) (k : String) :
    lastVal (w₁ ++ w₂) k =
      match lastVal w₂ k with
      | some v => some v
      | none => lastVal w₁ k := by
  induction w₁ with
  | nil => cases h : lastVal w₂ k <;> simp [lastVal, h]
  | cons p rest ih =>
      show (match lastVal (rest ++ w₂) k with
        | some v => some v
        | none => if p.1 = k then some p.2 else none) = _
      rw [ih]
      cases h2 : lastVal w₂ k <;> cases hr : lastVal rest k <;>
        simp [lastVal, hr]

theorem tableWrites_cons (e : String × Extractor)
    (tbl : List (String × Extractor)) (c : Option GlobeConfig) :
    tableWrites (e :: tbl) c =
      (match e.2 c with
       | some v => [(e.1, v)]
       | none => []) ++ tableWrites tbl c := by
  cases h : e.2 c <;> simp [tableWrites, h]

theorem lastVal_tableWrites_notMem (tbl : List (String × Extractor))
    (c : Option GlobeConfig) (k : String)
    (h : ∀ e ∈ tbl.map (fun e => e.1), e ≠ k) :
    lastVal (tableWrites tbl c) k = none := by
  induction tbl with
  | nil => rfl
  | cons e tbl ih =>
      rw [tableWrites_cons, lastVal_append,
        ih (fun x hx => h x (by simp [hx]))]
      have he : e.1 ≠ k := h e.1 (by simp)
      cases hv : e.2 c <;> simp [lastVal, he]

theorem lastVal_tableWrites_find (tbl : List (String × Extractor))
    (c : Option GlobeConfig) (k : String)
    (hnd : (tbl.map (fun e => e.1)).Nodup) :
    lastVal (tableWrites tbl c) k =
      (match tbl.find? (fun e => e.1 = k) with
       | some e => e.2 c
       | none => none) := by
  induction tbl with
  | nil => rfl
  | cons e tbl ih =>
      rw [tableWrites_cons, lastVal_append]
      simp only [List.map_cons, List.nodup_cons] at hnd
      by_cases hk : e.1 = k
      · subst hk
        rw [lastVal_tableWrites_notMem tbl c e.1
          (fun x hx hxx => hnd.1 (hxx ▸ hx))]
        rw [List.find?_cons_of_pos _ (by simp)]
        cases hv : e.2 c <;> simp [lastVal, hv]
      · rw [List.find?_cons_of_neg _ (by simp [hk]), ih hnd.2]
        cases hfind : tbl.find? (fun e => e.1 = k) with
        | some f =>
            cases hv : f.2 c with
            | some v => simp [hv]
            | none => cases hw : e.2 c <;> simp [lastVal, hk, hv, hw]
        | none => cases hw : e.2 c <;> simp [lastVal, hk, hw]

set_option maxRecDepth 4000 in
theorem configTable_keys_nodup :
    (configTable.map (fun e => e.1)).Nodup := by
  rw [show configTable.map (fun e => e.1) =
    ["globeOffset", "backgroundColor", "backgroundImageUrl",
     "globeImageUrl", "bumpImageUrl", "globeTileEngineUrl", "showGlobe",
     "showGraticules", "showAtmosphere", "atmosphereColor",
     "atmosphereAltitude", "globeCurvatureResolution", "globeMaterial",
     "pointsData", "pointLabel", "pointLat", "pointLng", "pointColor",
     "pointAltitude", "pointRadius", "pointResolution", "pointsMerge",
     "pointsTransitionDuration", "arcsData", "arcLabel", "arcStartLat",
     "arcStartLng", "arcStartAltitude", "arcEndLat", "arcEndLng",
     "arcEndAltitude", "arcColor", "arcAltitude", "arcAltitudeAutoScale",
     "arcStroke", "arcCurveResolution", "arcCircularResolution",
     "arcDashLength", "arcDashGap", "arcDashInitialGap",
     "arcDashAnimateTime", "arcsTransitionDuration", "polygonsData",
     "polygonLabel", "polygonGeoJsonGeometry", "polygonCapColor",
     "polygonCapMaterial", "polygonSideColor", "polygonSideMaterial",
     "polygonStrokeColor", "polygonAltitude",
     "polygonCapCurvatureResolution", "polygonsTransitionDuration",
     "pathsData", "pathLabel", "pathResolution", "pathColor",
     "pathStroke", "pathDashLength", "pathDashGap", "pathDashInitialGap",
     "pathDashAnimateTime", "pathTransitionDuration", "heatmapsData",
     "heatmapPoints", "heatmapPointLat", "heatmapPointLng",
     "heatmapPointWeight", "heatmapBandwidth", "heatmapColorFn",
     "heatmapColorSaturation", "heatmapBaseAltitude",
     "heatmapTopAltitude", "heatmapsTransitionDuration",
     "hexPolygonsData", "hexPolygonGeoJsonGeometry", "hexPolygonColor",
     "hexPolygonAltitude", "hexPolygonResolution", "hexPolygonMargin",
     "hexPolygonUseDots", "hexPolygonCurvatureResolution",
     "hexPolygonDotResolution", "hexPolygonsTransitionDuration",
     "hexPolygonLabel", "tilesData", "tileLat", "tileLng",
     "tileAltitude", "tileWidth", "tileHeight", "tileUseGlobeProjection",
     "tileMaterial", "tileCurvatureResolution", "tilesTransitionDuration",
     "tileLabel", "particlesData", "particlesList", "particleLat",
     "particleLng", "particleAltitude", "particlesSize",
     "particlesSizeAttenuation", "particlesColor", "particlesTexture",
     "particleLabel", "ringsData", "ringLat", "ringLng", "ringAltitude",
     "ringColor", "ringResolution", "ringMaxRadius",
     "ringPropagationSpeed", "ringRepeatPeriod", "labelsData",
     "labelLat", "labelLng", "labelAltitude", "labelRotation",
     "labelText", "labelSize", "labelTypeFace", "labelColor",
     "labelResolution", "labelIncludeDot", "labelDotRadius",
     "labelDotOrientation", "labelsTransitionDuration", "labelLabel",
     "pointOfView"] from rfl]
  decide

/-! ## Lemmas: patch by id -/

theorem patchStep_length (d cur : List JVal) (p : JVal) :
    (patchStep d cur p).length = cur.length := by
  unfold patchStep
  cases patchTarget d p with
  | none => rfl
  | some i =>
      cases h : cur[i]? with
      | none => simp [h]
      | some row => simp [h, List.length_set]

theorem foldl_patchStep_length (d : List JVal) (ps : List JVal)
    (cur : List JVal) :
    (ps.foldl (patchStep d) cur).length = cur.length := by
  induction ps generalizing cur with
  | nil => rfl
  | cons p ps ih => rw [List.foldl_cons, ih, patchStep_length]

theorem lastIndexOf_mem (d : List JVal) (k : String) (i : ℕ)
    (h : lastIndexOf d k = some i) :
    ∃ r, d[i]? = some r ∧ rowKey r = some k := by
  induction d generalizing i with
  | nil => simp [lastIndexOf] at h
  | cons hd rest ih =>
      unfold lastIndexOf at h
      cases hr : lastIndexOf rest k with
      | some j =>
          rw [hr] at h
          cases h
          obtain ⟨r, hget, hkey⟩ := ih j hr
          exact ⟨r, by simpa using hget, hkey⟩
      | none =>
          rw [hr] at h
          by_cases hk : rowKey hd = some k
          · rw [if_pos hk] at h
            cases h
            exact ⟨hd, by simp, hk⟩
          · rw [if_neg hk] at h
            cases h

theorem lastIndexOf_none (d : List JVal) (k : String)
    (h : lastIndexOf d k = none) :
    ∀ (j : ℕ) (r : JVal), d[j]? = some r → rowKey r ≠ some k := by
  induction d with
  | nil =>
      intro j r hget
      simp at hget
  | cons hd rest ih =>
      unfold lastIndexOf at h
      cases hr : lastIndexOf rest k with
      | some j => rw [hr] at h; cases h
      | none =>
          rw [hr] at h
          by_cases hk : rowKey hd = some k
          · rw [if_pos hk] at h; cases h
          · intro j r hget
            cases j with
            | zero =>
                rw [List.getElem?_cons_zero] at hget
                injection hget with hh
                subst hh
                exact hk
            | succ j => exact ih hr j r (by simpa using hget)

theorem lastIndexOf_last (d : List JVal) (k : String) (i : ℕ)
    (h : lastIndexOf d k = some i) :
    ∀ (j : ℕ) (r : JVal), i < j → d[j]? = some r → rowKey r ≠ some k := by
  induction d generalizing i with
  | nil => simp [lastIndexOf] at h
  | cons hd rest ih =>
      unfold lastIndexOf at h
      cases hr : lastIndexOf rest k with
      | some j' =>
          rw [hr] at h
          cases h
          intro j r hij hget
          cases j with
          | zero => omega
          | succ j =>
              exact ih j' hr j r (by omega) (by simpa using hget)
      | none =>
          rw [hr] at h
          by_cases hk : rowKey hd = some k
          · rw [if_pos hk] at h
            cases h
            intro j r hij hget
            cases j with
            | zero => omega
            | succ j => exact lastIndexOf_none rest k hr j r (by simpa using hget)
          · rw [if_neg hk] at h; cases h

theorem lastIndexOf_complete (d : List JVal) (k : String) (i : ℕ) (r : JVal)
    (hget : d[i]? = some r) (hkey : rowKey r = some k) :
    ∃ j, lastIndexOf d k = some j ∧ i ≤ j := by
  induction d generalizing i with
  | nil => simp at hget
  | cons hd rest ih =>
      cases i with
      | zero =>
          rw [List.getElem?_cons_zero] at hget
          injection hget with hh
          subst hh
          cases hr : lastIndexOf rest k with
          | some j => exact ⟨j + 1, by simp [lastIndexOf, hr], by omega⟩
          | none =>
              exact ⟨0, by simp [lastIndexOf, hr, hkey], le_refl 0⟩
      | succ i =>
          obtain ⟨j, hj, hij⟩ := ih i (by simpa using hget)
          exact ⟨j + 1, by simp [lastIndexOf, hj], by omega⟩

theorem patchStep_getElem_ne (d cur : List JVal) (p : JVal) (i : ℕ)
    (h : patchTarget d p ≠ some i) :
    (patchStep d cur p)[i]? = cur[i]? := by
  unfold patchStep
  cases ht : patchTarget d p with
  | none => rfl
  | some j =>
      have hij : j ≠ i := fun hji => h (hji ▸ ht)
      cases hc : cur[j]? with
      | none => simp [hc]
      | some row => simp [hc, List.getElem?_set_ne hij]

theorem foldl_patchStep_untouched (d : List JVal) (ps : List JVal)
    (cur : List JVal) (i : ℕ)
    (h : ∀ p ∈ ps, patchTarget d p ≠ some i) :
    (ps.foldl (patchStep d) cur)[i]? = cur[i]? := by
  induction ps generalizing cur with
  | nil => rfl
  | cons p ps ih =>
      rw [List.foldl_cons, ih _ (fun q hq => h q (by simp [hq])),
        patchStep_getElem_ne d cur p i (h p (by simp))]

theorem patchTarget_indexed (d : List JVal) (p : JVal) (i : ℕ)
    (h : patchTarget d p = some i) :
    ∃ pid r, patchId p = some pid ∧ d[i]? = some r ∧
      rowKey r = some pid.jsToString := by
  unfold patchTarget at h
  cases hp : patchId p with
  | none => rw [hp] at h; cases h
  | some pid =>
      rw [hp] at h
      obtain ⟨r, hget, hkey⟩ := lastIndexOf_mem d pid.jsToString i h
      exact ⟨pid, r, rfl, hget, hkey⟩

theorem patchStep_of_target_none (d cur : List JVal) (p : JVal)
    (h : patchTarget d p = none) : patchStep d cur p = cur := by
  simp [patchStep, h]

theorem applyPatches_drop (d : List JVal) (ps₁ ps₂ : List JVal) (p : JVal)
    (h : patchTarget d p = none) :
    applyPatches d (ps₁ ++ p :: ps₂) = applyPatches d (ps₁ ++ ps₂) := by
  unfold applyPatches
  rw [List.foldl_append, List.foldl_append, List.foldl_cons,
    patchStep_of_target_none d _ p h]

/-! ## Lemmas: layout sizing, resize and `applyConfig` -/

theorem applyLayoutSizing_fst (layout : Option GlobeLayoutConfig)
    (s : WState) :
    (applyLayoutSizing layout s).1 = hasExplicitSize layout := by
  unfold applyLayoutSizing hasExplicitSize
  cases hw : numOf (layout.bind (fun l => l.width)) <;>
    cases hh : numOf (layout.bind (fun l => l.height)) <;> simp

theorem applyLayoutSizing_acc (layout : Option GlobeLayoutConfig)
    (s : WState) :
    ((applyLayoutSizing layout s).2).acc =
      applyWritesF (sizingWrites layout) s.acc := by
  unfold applyLayoutSizing sizingWrites
  cases hw : numOf (layout.bind (fun l => l.width)) <;>
    cases hh : numOf (layout.bind (fun l => l.height)) <;>
      simp [applyWritesF, applyAcc]

theorem applyLayoutSizing_observer (layout : Option GlobeLayoutConfig)
    (s : WState) :
    ((applyLayoutSizing layout s).2).observer = s.observer := by
  unfold applyLayoutSizing
  cases hw : numOf (layout.bind (fun l => l.width)) <;>
    cases hh : numOf (layout.bind (fun l => l.height)) <;>
      simp [applyAcc]

theorem applyLayoutSizing_of_none (layout : Option GlobeLayoutConfig)
    (s : WState) (h : hasExplicitSize layout = false) :
    applyLayoutSizing layout s = (false, s) := by
  unfold hasExplicitSize at h
  unfold applyLayoutSizing
  cases hw : numOf (layout.bind (fun l => l.width)) <;>
    cases hh : numOf (layout.bind (fun l => l.height)) <;>
      simp_all

theorem resize_acc (env : ResizeEnv) (s : WState) :
    (resize env s).acc = applyWritesF (resizeWrites env) s.acc := by
  unfold resize resizeWrites
  by_cases h : env.elWidth ≤ 0 <;> simp [h, applyWritesF, applyAcc]

theorem resize_observer (env : ResizeEnv) (s : WState) :
    (resize env s).observer = s.observer := by
  unfold resize
  by_cases h : env.elWidth ≤ 0 <;> simp [h, applyAcc]

theorem enableAutoResize_acc (env : ResizeEnv) (s : WState) :
    (enableAutoResize env s).acc =
      if s.observer then s.acc
      else applyWritesF (resizeWrites env) s.acc := by
  unfold enableAutoResize
  by_cases h : s.observer <;> simp [h, resize_acc]

theorem enableAutoResize_observer (env : ResizeEnv) (s : WState) :
    (enableAutoResize env s).observer = true := by
  unfold enableAutoResize
  by_cases h : s.observer <;> simp [h]

theorem applyConfig_acc (env : ResizeEnv) (c : Option GlobeConfig)
    (s : WState) :
    (applyConfig env c s).acc =
      applyWritesF (tableWrites configTable c)
        (if hasExplicitSize (c.bind (fun x => x.layout)) then
          applyWritesF (sizingWrites (c.bind (fun x => x.layout))) s.acc
         else if s.observer then s.acc
         else applyWritesF (resizeWrites env) s.acc) := by
  unfold applyConfig
  rw [applyWritesS_acc]
  by_cases hb : hasExplicitSize (c.bind (fun x => x.layout))
  · simp only [hb, applyLayoutSizing_fst, if_pos, if_true]
    rw [show (disableAutoResize (applyLayoutSizing (c.bind (fun x => x.layout)) s).2).acc
        = ((applyLayoutSizing (c.bind (fun x => x.layout)) s).2).acc from rfl,
      applyLayoutSizing_acc]
  · rw [applyLayoutSizing_of_none _ _ (by simpa using hb)]
    simp only [Bool.false_eq_true, if_false, enableAutoResize_acc, hb]

theorem applyConfig_observer (env : ResizeEnv) (c : Option GlobeConfig)
    (s : WState) :
    (applyConfig env c s).observer =
      !hasExplicitSize (c.bind (fun x => x.layout)) := by
  unfold applyConfig
  rw [applyWritesS_observer]
  by_cases hb : hasExplicitSize (c.bind (fun x => x.layout))
  · simp only [hb, applyLayoutSizing_fst, if_true]
    rfl
  · rw [applyLayoutSizing_of_none _ _ (by simpa using hb)]
    simp only [hb, if_false, Bool.not_false]
    exact enableAutoResize_observer env s

/-! ## Lemmas: hover-binding registry -/

theorem bindLayer_inv (cfg : String → Bool) (l : String) (s : HoverState)
    (h : HoverInv s) : HoverInv (bindLayer cfg l s) := by
  unfold bindLayer
  by_cases hc : cfg (l ++ "Hover") && !s.bound l
  · rw [if_pos hc]
    intro k
    by_cases hk : k = l
    · subst hk
      have hb : s.bound k = false := by
        rcases Bool.and_eq_true_iff.mp hc with ⟨_, hnb⟩
        simpa using hnb
      simp [h k, hb]
    · simp [hk, h k]
  · rw [if_neg hc]
    exact h

theorem foldl_bindLayer_inv (cfg : String → Bool) (ls : List String)
    (s : HoverState) (h : HoverInv s) :
    HoverInv (ls.foldl (fun st l => bindLayer cfg l st) s) := by
  induction ls generalizing s with
  | nil => exact h
  | cons a ls ih => exact ih _ (bindLayer_inv cfg a s h)

theorem maybeBindHoverHandlers_inv (cfg : String → Bool) (s : HoverState)
    (h : HoverInv s) : HoverInv (maybeBindHoverHandlers cfg s) :=
  foldl_bindLayer_inv cfg hoverLayers s h

theorem hoverAfter_inv (cfgs : List (String → Bool)) :
    HoverInv (hoverAfter cfgs) := by
  unfold hoverAfter
  have base : HoverInv initHover := fun l => rfl
  generalize initHover = s at base ⊢
  induction cfgs generalizing s with
  | nil => exact base
  | cons cfg cfgs ih => exact ih _ (maybeBindHoverHandlers_inv cfg s base)

theorem bindLayer_bound_mono (cfg : String → Bool) (l k : String)
    (s : HoverState) (h : s.bound k = true) :
    (bindLayer cfg l s).bound k = true := by
  unfold bindLayer
  by_cases hc : cfg (l ++ "Hover") && !s.bound l
  · rw [if_pos hc]
    by_cases hk : k = l <;> simp [hk, h]
  · rw [if_neg hc]; exact h

theorem foldl_bindLayer_bound_mono (cfg : String → Bool) (ls : List String)
    (k : String) (s : HoverState) (h : s.bound k = true) :
    (ls.foldl (fun st l => bindLayer cfg l st) s).bound k = true := by
  induction ls generalizing s with
  | nil => exact h
  | cons a ls ih => exact ih _ (bindLayer_bound_mono cfg a k s h)

theorem maybeBindHoverHandlers_bound (cfg : String → Bool) (l : String)
    (s : HoverState) (hl : l ∈ hoverLayers)
    (hc : cfg (l ++ "Hover") = true) :
    (maybeBindHoverHandlers cfg s).bound l = true := by
  unfold maybeBindHoverHandlers
  have step : ∀ (ls : List String) (s : HoverState), l ∈ ls →
      (ls.foldl (fun st a => bindLayer cfg a st) s).bound l = true := by
    intro ls
    induction ls with
    | nil => intro s h; cases h
    | cons a ls ih =>
        intro s hmem
        rw [List.foldl_cons]
        rcases List.mem_cons.mp hmem with heq | hmem2
        · subst heq
          apply foldl_bindLayer_bound_mono
          unfold bindLayer
          by_cases hb : s.bound l
          · by_cases hg : cfg (l ++ "Hover") && !s.bound l <;>
              simp [hg, hb]
          · simp [hc, hb]
        · exact ih _ hmem2
  exact step hoverLayers s hl

theorem lastVal_configTable_width (c : Option GlobeConfig) :
    lastVal (tableWrites configTable c) "width" = none := by
  rw [lastVal_tableWrites_find _ _ _ configTable_keys_nodup]
  rfl

theorem lastVal_configTable_height (c : Option GlobeConfig) :
    lastVal (tableWrites configTable c) "height" = none := by
  rw [lastVal_tableWrites_find _ _ _ configTable_keys_nodup]
  rfl

theorem lastVal_configTable_tileUrl (c : Option GlobeConfig) :
    lastVal (tableWrites configTable c) "globeTileEngineUrl" =
      exTileEngineUrl c := by
  rw [lastVal_tableWrites_find _ _ _ configTable_keys_nodup]
  rfl

theorem lastVal_configTable_globeMaterial (c : Option GlobeConfig) :
    lastVal (tableWrites configTable c) "globeMaterial" =
      exMaterial (fun x => x.globe) (fun g => g.globeMaterial) c := by
  rw [lastVal_tableWrites_find _ _ _ configTable_keys_nodup]
  rfl

theorem lastVal_configTable_polygonCapMaterial (c : Option GlobeConfig) :
    lastVal (tableWrites configTable c) "polygonCapMaterial" =
      exMaterial (fun x => x.polygons) (fun g => g.polygonCapMaterial) c := by
  rw [lastVal_tableWrites_find _ _ _ configTable_keys_nodup]
  rfl

theorem lastVal_configTable_polygonSideMaterial (c : Option GlobeConfig) :
    lastVal (tableWrites configTable c) "polygonSideMaterial" =
      exMaterial (fun x => x.polygons) (fun g => g.polygonSideMaterial) c := by
  rw [lastVal_tableWrites_find _ _ _ configTable_keys_nodup]
  rfl

theorem applyConfig_mountW (env : ResizeEnv) (c : Option GlobeConfig)
    (s : WState) (hb : hasExplicitSize (c.bind (fun x => x.layout)) = true) :
    (applyConfig env c s).mountW =
      ((applyLayoutSizing (c.bind (fun x => x.layout)) s).2).mountW := by
  unfold applyConfig
  rw [applyWritesS_mountW]
  simp only [applyLayoutSizing_fst, hb, if_true]
  rfl

theorem applyConfig_mountH (env : ResizeEnv) (c : Option GlobeConfig)
    (s : WState) (hb : hasExplicitSize (c.bind (fun x => x.layout)) = true) :
    (applyConfig env c s).mountH =
      ((applyLayoutSizing (c.bind (fun x => x.layout)) s).2).mountH := by
  unfold applyConfig
  rw [applyWritesS_mountH]
  simp only [applyLayoutSizing_fst, hb, if_true]
  rfl

/-! ## Claim theorems -/

/-- C4: applying the same configuration object twice in succession (two
consecutive calls to `applyConfig` with the same argument, against the
same DOM geometry) leaves every render-target accessor with the same
final value as applying it once. -/
theorem c4_applyConfig_idempotent (env : ResizeEnv) (c : Option GlobeConfig)
    (s : WState) :
    (applyConfig env c (applyConfig env c s)).acc =
      (applyConfig env c s).acc := by
  rw [applyConfig_acc env c (applyConfig env c s), applyConfig_observer,
    applyConfig_acc env c s]
  by_cases hb : hasExplicitSize (c.bind (fun x => x.layout))
  · simp only [hb, if_true]
    rw [← applyWritesF_append (sizingWrites (c.bind fun x => x.layout))
        (tableWrites configTable c) s.acc,
      ← applyWritesF_append (sizingWrites (c.bind fun x => x.layout))
        (tableWrites configTable c)
        (applyWritesF (sizingWrites (c.bind fun x => x.layout) ++
          tableWrites configTable c) s.acc),
      applyWritesF_idem]
  · simp only [hb, Bool.not_false, if_false, if_true, Bool.false_eq_true,
      if_neg (Bool.false_ne_true)]
    exact applyWritesF_idem _ _

/-- C3: whenever the auto-resize computation runs and the host element's
bounding width is positive, the render target's width and height
accessors are both set to
`floor(min(containerWidth, effectiveHeight if positive else
containerWidth, viewportHeight if positive else containerWidth) * 0.75)`
floored at zero — with `effHeightOf` the padding-adjusted max-height of
the reference container when the max-height is positive, else its
padding-adjusted content height; and whenever the bounding width is
zero, the computation is a no-op leaving the entire prior state
untouched. -/
theorem c3_resize_formula (env : ResizeEnv) (s : WState) :
    (0 < env.elWidth →
      (resize env s).acc "width" =
        .num ((max 0 ⌊min env.elWidth (min
          (if effHeightOf env > 0 then effHeightOf env else env.elWidth)
          (if env.viewportHeight > 0 then env.viewportHeight
           else env.elWidth)) * (3 / 4 : ℚ)⌋ : ℤ) : ℚ) ∧
      (resize env s).acc "height" =
        .num ((max 0 ⌊min env.elWidth (min
          (if effHeightOf env > 0 then effHeightOf env else env.elWidth)
          (if env.viewportHeight > 0 then env.viewportHeight
           else env.elWidth)) * (3 / 4 : ℚ)⌋ : ℤ) : ℚ)) ∧
    (env.elWidth = 0 → resize env s = s) := by
  constructor
  · intro hpos
    have hne : ¬ env.elWidth ≤ 0 := not_le.mpr hpos
    unfold resize
    rw [if_neg hne]
    refine ⟨?_, ?_⟩ <;> simp [applyAcc, resizeSize]
  · intro hzero
    unfold resize
    rw [if_pos (le_of_eq hzero)]

/-- C3 witness: a 400px-wide host inside a container of content height
600 with 10px paddings and no max-height, viewport 800: the render
target is driven to `floor(min(400, 580, 800) * 0.75) = 300` square. -/
theorem c3_resize_formula_witness :
    (0 : ℚ) < 400 ∧
    (resize ⟨400, some ⟨600, 10, 10, none⟩, 800⟩ initState).acc "width" =
      .num 300 ∧
    (resize ⟨400, some ⟨600, 10, 10, none⟩, 800⟩ initState).acc "height" =
      .num 300 := by
  have hpos : (0 : ℚ) < (⟨400, some ⟨600, 10, 10, none⟩, 800⟩ :
      ResizeEnv).elWidth := by norm_num
  have h := (c3_resize_formula ⟨400, some ⟨600, 10, 10, none⟩, 800⟩
    initState).1 hpos
  refine ⟨by norm_num, ?_, ?_⟩
  · rw [h.1]
    norm_num [effHeightOf, maxHeightOf, containerHeightOf, containerPaddingOf]
  · rw [h.2]
    norm_num [effHeightOf, maxHeightOf, containerHeightOf, containerPaddingOf]

/-- C9: for every layer, at most one hover listener is ever attached per
mount — after any sequence of event-configuration snapshots the hover
registration count of each layer is at most one, and delivering the
hover-enable signal for a layer twice attaches exactly one listener for
it. -/
theorem c9_hover_at_most_once :
    (∀ (cfgs : List (String → Bool)) (l : String),
      (hoverAfter cfgs).regCount l ≤ 1) ∧
    (∀ (cfg : String → Bool) (l : String), l ∈ hoverLayers →
      cfg (l ++ "Hover") = true →
      (maybeBindHoverHandlers cfg
        (maybeBindHoverHandlers cfg initHover)).regCount l = 1) := by
  constructor
  · intro cfgs l
    rw [hoverAfter_inv cfgs l]
    by_cases h : (hoverAfter cfgs).bound l <;> simp [h]
  · intro cfg l hl hc
    have inv1 : HoverInv (maybeBindHoverHandlers cfg initHover) :=
      maybeBindHoverHandlers_inv cfg initHover (fun _ => rfl)
    have inv2 : HoverInv (maybeBindHoverHandlers cfg
        (maybeBindHoverHandlers cfg initHover)) :=
      maybeBindHoverHandlers_inv cfg _ inv1
    have hb1 : (maybeBindHoverHandlers cfg initHover).bound l = true :=
      maybeBindHoverHandlers_bound cfg l initHover hl hc
    have hb2 : (maybeBindHoverHandlers cfg
        (maybeBindHoverHandlers cfg initHover)).bound l = true :=
      foldl_bindLayer_bound_mono cfg hoverLayers l _ hb1
    rw [inv2 l, hb2]
    rfl

/-- C9 witness: enabling point hover twice registers the point hover
listener exactly once. -/
theorem c9_hover_at_most_once_witness :
    (maybeBindHoverHandlers (fun k => k == "pointHover")
      (maybeBindHoverHandlers (fun k => k == "pointHover")
        initHover)).regCount "point" = 1 :=
  c9_hover_at_most_once.2 (fun k => k == "pointHover") "point"
    (by decide) (by simp)

/-- C2: the layout sizing rule of `applyConfig` falls into exactly one
of three cases — neither dimension a finite number: no explicit size is
reported and auto-resize is enabled (an observer is attached);
exactly one dimension given: the given dimension is applied and the
missing one set equal to it on both the mount element and the render
target; both given: the render target's width / height accessors receive
exactly those values, auto-resize is disabled and no observer remains
attached. -/
theorem c2_layout_sizing_cases (env : ResizeEnv) (c : Option GlobeConfig)
    (s : WState) :
    (numOf ((c.bind fun x => x.layout).bind fun l => l.width) = none →
     numOf ((c.bind fun x => x.layout).bind fun l => l.height) = none →
      (applyLayoutSizing (c.bind fun x => x.layout) s).1 = false ∧
      (applyConfig env c s).observer = true) ∧
    (∀ w : ℚ,
      numOf ((c.bind fun x => x.layout).bind fun l => l.width) = some w →
      numOf ((c.bind fun x => x.layout).bind fun l => l.height) = none →
      (applyConfig env c s).acc "width" = .num w ∧
      (applyConfig env c s).acc "height" = .num w ∧
      (applyConfig env c s).mountW = some w ∧
      (applyConfig env c s).mountH = some w) ∧
    (∀ h : ℚ,
      numOf ((c.bind fun x => x.layout).bind fun l => l.width) = none →
      numOf ((c.bind fun x => x.layout).bind fun l => l.height) = some h →
      (applyConfig env c s).acc "width" = .num h ∧
      (applyConfig env c s).acc "height" = .num h ∧
      (applyConfig env c s).mountW = some h ∧
      (applyConfig env c s).mountH = some h) ∧
    (∀ w h : ℚ,
      numOf ((c.bind fun x => x.layout).bind fun l => l.width) = some w →
      numOf ((c.bind fun x => x.layout).bind fun l => l.height) = some h →
      (applyConfig env c s).acc "width" = .num w ∧
      (applyConfig env c s).acc "height" = .num h ∧
      (applyConfig env c s).observer = false) := by
  refine ⟨?_, ?_, ?_, ?_⟩
  · intro hw hh
    have hb : hasExplicitSize (c.bind fun x => x.layout) = false := by
      simp [hasExplicitSize, hw, hh]
    refine ⟨by rw [applyLayoutSizing_fst, hb], ?_⟩
    rw [applyConfig_observer, hb]
    rfl
  · intro w hw hh
    have hb : hasExplicitSize (c.bind fun x => x.layout) = true := by
      simp [hasExplicitSize, hw]
    refine ⟨?_, ?_, ?_, ?_⟩
    · rw [applyConfig_acc]
      simp only [hb, if_true]
      rw [applyWritesF_eq, lastVal_configTable_width, Option.getD_none,
        applyWritesF_eq]
      simp [sizingWrites, hw, hh, lastVal]
    · rw [applyConfig_acc]
      simp only [hb, if_true]
      rw [applyWritesF_eq, lastVal_configTable_height, Option.getD_none,
        applyWritesF_eq]
      simp [sizingWrites, hw, hh, lastVal]
    · rw [applyConfig_mountW env c s hb]
      unfold applyLayoutSizing
      simp [hw, hh, applyAcc]
    · rw [applyConfig_mountH env c s hb]
      unfold applyLayoutSizing
      simp [hw, hh, applyAcc]
  · intro h hw hh
    have hb : hasExplicitSize (c.bind fun x => x.layout) = true := by
      simp [hasExplicitSize, hh]
    refine ⟨?_, ?_, ?_, ?_⟩
    · rw [applyConfig_acc]
      simp only [hb, if_true]
      rw [applyWritesF_eq, lastVal_configTable_width, Option.getD_none,
        applyWritesF_eq]
      simp [sizingWrites, hw, hh, lastVal]
    · rw [applyConfig_acc]
      simp only [hb, if_true]
      rw [applyWritesF_eq, lastVal_configTable_height, Option.getD_none,
        applyWritesF_eq]
      simp [sizingWrites, hw, hh, lastVal]
    · rw [applyConfig_mountW env c s hb]
      unfold applyLayoutSizing
      simp [hw, hh, applyAcc]
    · rw [applyConfig_mountH env c s hb]
      unfold applyLayoutSizing
      simp [hw, hh, applyAcc]
  · intro w h hw hh
    have hb : hasExplicitSize (c.bind fun x => x.layout) = true := by
      simp [hasExplicitSize, hw]
    refine ⟨?_, ?_, ?_⟩
    · rw [applyConfig_acc]
      simp only [hb, if_true]
      rw [applyWritesF_eq, lastVal_configTable_width, Option.getD_none,
        applyWritesF_eq]
      simp [sizingWrites, hw, hh, lastVal]
    · rw [applyConfig_acc]
      simp only [hb, if_true]
      rw [applyWritesF_eq, lastVal_configTable_height, Option.getD_none,
        applyWritesF_eq]
      simp [sizingWrites, hw, hh, lastVal]
    · rw [applyConfig_observer, hb]
      rfl

/-- C2 witness: a layout with width 100 and height 50 drives the render
target to exactly 100 by 50 with the observer detached; a width-only
layout of 120 squares both dimensions to 120. -/
theorem c2_layout_sizing_cases_witness :
    ((applyConfig ⟨0, none, 0⟩
        (some { layout := some { width := some (.num 100),
                                 height := some (.num 50) } })
        initState).acc "width" = .num 100 ∧
     (applyConfig ⟨0, none, 0⟩
        (some { layout := some { width := some (.num 100),
                                 height := some (.num 50) } })
        initState).acc "height" = .num 50 ∧
     (applyConfig ⟨0, none, 0⟩
        (some { layout := some { width := some (.num 100),
                                 height := some (.num 50) } })
        initState).observer = false) ∧
    ((applyConfig ⟨0, none, 0⟩
        (some { layout := some { width := some (.num 120) } })
        initState).acc "height" = .num 120 ∧
     (applyConfig ⟨0, none, 0⟩
        (some { layout := some { width := some (.num 120) } })
        initState).mountH = some 120) := by
  constructor
  · exact (c2_layout_sizing_cases ⟨0, none, 0⟩
      (some { layout := some { width := some (.num 100),
                               height := some (.num 50) } })
      initState).2.2.2 100 50 rfl rfl
  · have h := (c2_layout_sizing_cases ⟨0, none, 0⟩
      (some { layout := some { width := some (.num 120) } })
      initState).2.1 120 rfl rfl
    exact ⟨h.2.1, h.2.2.2⟩

/-- C10: patch-by-id matching compares ids after `String(·)` coercion —
a patch's target position always carries the patch id's stringified key
(`patchTarget` is `lastIndexOf` at `String(patchId)`), the indexed row
is the last row with that stringified key and every row with that key
sits at or before it, so numeric id 1 matches string id `"1"` and when
several rows share a stringified id, all patches with that id merge onto
the last occurrence. -/
theorem c10_patch_matching :
    (∀ (d : List JVal) (p : JVal) (pid : JVal), patchId p = some pid →
      patchTarget d p = lastIndexOf d pid.jsToString) ∧
    (∀ (d : List JVal) (k : String) (i : ℕ), lastIndexOf d k = some i →
      ∃ r, d[i]? = some r ∧ rowKey r = some k) ∧
    (∀ (d : List JVal) (k : String) (i j : ℕ) (r : JVal),
      lastIndexOf d k = some i → i < j → d[j]? = some r →
      rowKey r ≠ some k) ∧
    (∀ (d : List JVal) (k : String) (i : ℕ) (r : JVal), d[i]? = some r →
      rowKey r = some k → ∃ j, lastIndexOf d k = some j ∧ i ≤ j) ∧
    (JVal.num 1).jsToString = (JVal.str "1").jsToString ∧
    applyPatches [.obj [("id", .num 1), ("x", .num 1)]]
        [.obj [("id", .str "1"), ("x", .num 9)]] =
      [.obj [("id", .str "1"), ("x", .num 9)]] ∧
    applyPatches
        [.obj [("id", .str "a"), ("x", .num 1)],
         .obj [("id", .str "a"), ("x", .num 2)]]
        [.obj [("id", .str "a"), ("x", .num 9)]] =
      [.obj [("id", .str "a"), ("x", .num 1)],
       .obj [("id", .str "a"), ("x", .num 9)]] := by
  refine ⟨?_, lastIndexOf_mem, ?_, lastIndexOf_complete, rfl, rfl, rfl⟩
  · intro d p pid hp
    unfold patchTarget
    rw [hp]
  · intro d k i j r h hij hget
    exact lastIndexOf_last d k i h j r hij hget

/-- C10 witness: in a dataset with duplicate stringified id `"1"` (one
numeric, one string), the identity index resolves to the last
occurrence, whose row key agrees with the coerced id. -/
theorem c10_patch_matching_witness :
    patchTarget [JVal.obj [("id", .num 1)], JVal.obj [("id", .str "1")]]
        (JVal.obj [("id", .num 1), ("x", .num 9)]) =
      lastIndexOf [JVal.obj [("id", .num 1)], JVal.obj [("id", .str "1")]]
        (JVal.num 1).jsToString ∧
    (∃ r, ([JVal.obj [("id", .num 1)], JVal.obj [("id", .str "1")]])[1]? =
        some r ∧ rowKey r = some "1") := by
  constructor
  · exact c10_patch_matching.1 _ _ (JVal.num 1) rfl
  · exact c10_patch_matching.2.1 _ "1" 1 rfl

/-- C6: for a configured non-empty tile URL template string, the
`globeTileEngineUrl` accessor receives the generator function carrying
the template, whose application to numeric coordinates x, y and level l
replaces every `\x7bx\x7d` by x, every `\x7by\x7d` by y and every
`\x7bl\x7d` and `\x7bz\x7d` by l; an empty or null template calls the
accessor with null (cleared). -/
theorem c6_tile_url_template (env : ResizeEnv) (c : Option GlobeConfig)
    (s : WState) (t? : Option String)
    (hg : (c.bind fun x => x.globe).bind (fun g => g.globeTileEngineUrl) =
      some t?) :
    (∀ t : String, t? = some t → t ≠ "" →
      (applyConfig env c s).acc "globeTileEngineUrl" = .tileGen t) ∧
    (∀ (t : String) (x y l : ℤ), tileGenApply t x y l =
      jsReplaceAll (jsReplaceAll (jsReplaceAll (jsReplaceAll t
        "{x}" (toString x)) "{y}" (toString y)) "{l}" (toString l))
        "{z}" (toString l)) ∧
    tileGenApply "https://tile/{z}/{x}/{y}.png" 1 2 3 =
      "https://tile/3/1/2.png" ∧
    ((t? = none ∨ t? = some "") →
      (applyConfig env c s).acc "globeTileEngineUrl" = .jnull) := by
  refine ⟨?_, fun t x y l => rfl, by decide, ?_⟩
  · intro t ht hne
    rw [applyConfig_acc, applyWritesF_eq, lastVal_configTable_tileUrl]
    unfold exTileEngineUrl
    rw [hg, ht]
    simp [hne]
  · intro hcase
    rw [applyConfig_acc, applyWritesF_eq, lastVal_configTable_tileUrl]
    unfold exTileEngineUrl
    rcases hcase with h | h <;> rw [hg, h] <;> simp

/-- C6 witness: a concrete template is installed as its generator and an
empty template clears the accessor. -/
theorem c6_tile_url_template_witness :
    (applyConfig ⟨0, none, 0⟩ (some tileUrlWitnessConfig)
      initState).acc "globeTileEngineUrl" =
        .tileGen "https://tile/{z}/{x}/{y}.png" ∧
    (applyConfig ⟨0, none, 0⟩ (some tileUrlWitnessConfigNull)
      initState).acc "globeTileEngineUrl" = .jnull := by
  constructor
  · exact (c6_tile_url_template ⟨0, none, 0⟩ (some tileUrlWitnessConfig)
      initState (some "https://tile/{z}/{x}/{y}.png") rfl).1
      "https://tile/{z}/{x}/{y}.png" rfl (by decide)
  · exact (c6_tile_url_template ⟨0, none, 0⟩ (some tileUrlWitnessConfigNull)
      initState none rfl).2.2.2 (Or.inl rfl)

/-- C7: a `<layer>_prop` message whose `payload.prop` is not a string or
not in the layer's allow-list leaves the state untouched — no accessor
invoked, no exception; in particular `points_prop` with
`"doesNotExist"` has no effect.  Every `<layer>_prop` message reduces to
`applyLayerProp` on that layer's allow-list, and an allow-listed prop
invokes the accessor named by it with `payload.value` (material-resolved
for the three material props). -/
theorem c7_unknown_prop_ignored :
    (∀ (props : List String) (prop value : JVal) (s : WState),
      (∀ p : String, prop = .str p → p ∉ props) →
      applyLayerProp props prop value s = s) ∧
    (∀ (ty : String) (props : List String),
      (ty, props) ∈ layerPropTable → ∀ (payload : JVal) (s : WState),
      handleMessage ⟨ty, some payload⟩ s =
        applyLayerProp props (payload.getField "prop")
          (payload.getField "value") s) ∧
    (∀ (props : List String) (p : String) (value : JVal) (s : WState),
      p ∈ props → applyLayerProp props (.str p) value s =
        applyAcc p
          (if p ∈ materialProps then buildMaterial value
           else if p ∈ constantAccessorProps then .constFn value
           else value) s) ∧
    (∀ (s : WState) (v : JVal),
      handleMessage ⟨"points_prop",
        some (.obj [("prop", .str "doesNotExist"), ("value", v)])⟩ s = s) := by
  have hskip : ∀ (props : List String) (prop value : JVal) (s : WState),
      (∀ p : String, prop = .str p → p ∉ props) →
      applyLayerProp props prop value s = s := by
    intro props prop value s h
    cases prop with
    | str p =>
        have hnp := h p rfl
        simp [applyLayerProp, hnp]
    | undefined => rfl
    | jnull => rfl
    | bool b => rfl
    | num q => rfl
    | arr a b => rfl
    | obj f => rfl
    | material a b => rfl
    | texture a => rfl
    | tileGen a => rfl
    | constFn a => rfl
  have hdispatch : ∀ (ty : String) (props : List String),
      (ty, props) ∈ layerPropTable → ∀ (payload : JVal) (s : WState),
      handleMessage ⟨ty, some payload⟩ s =
        applyLayerProp props (payload.getField "prop")
          (payload.getField "value") s := by
    intro ty props hmem payload s
    simp only [layerPropTable, List.mem_cons, List.not_mem_nil, or_false,
      Prod.mk.injEq] at hmem
    rcases hmem with ⟨h1, h2⟩ | ⟨h1, h2⟩ | ⟨h1, h2⟩ | ⟨h1, h2⟩ | ⟨h1, h2⟩ |
      ⟨h1, h2⟩ | ⟨h1, h2⟩ | ⟨h1, h2⟩ | ⟨h1, h2⟩ | ⟨h1, h2⟩ | ⟨h1, h2⟩ <;>
      subst h1 <;> subst h2 <;> simp [handleMessage]
  refine ⟨hskip, hdispatch, ?_, ?_⟩
  · intro props p value s hp
    simp [applyLayerProp, hp]
  · intro s v
    rw [hdispatch "points_prop" pointProps (by simp [layerPropTable]) _ s]
    apply hskip
    intro p hp
    injection hp with hp
    subst hp
    decide

/-- C7 witness: a `points_prop` message naming the allow-listed
`pointColor` drives that accessor with the payload value, while
`doesNotExist` leaves the initial state untouched. -/
theorem c7_unknown_prop_ignored_witness :
    handleMessage ⟨"points_prop",
      some (.obj [("prop", .str "pointColor"), ("value", .str "red")])⟩
      initState =
      applyAcc "pointColor" (.str "red") initState ∧
    handleMessage ⟨"points_prop",
      some (.obj [("prop", .str "doesNotExist"), ("value", .num 1)])⟩
      initState = initState := by
  constructor
  · rw [c7_unknown_prop_ignored.2.1 "points_prop" pointProps
      (by simp [layerPropTable]) _ initState]
    have h := c7_unknown_prop_ignored.2.2.1 pointProps "pointColor"
      (.str "red") initState (by decide)
    rw [show (JVal.obj [("prop", .str "pointColor"),
        ("value", .str "red")]).getField "prop" = .str "pointColor" from rfl,
      show (JVal.obj [("prop", .str "pointColor"),
        ("value", .str "red")]).getField "value" = .str "red" from rfl, h]
    rfl
  · exact c7_unknown_prop_ignored.2.2.2 initState (.num 1)

/-- C8 counterexample: the dispatch block requires the `payload` key to
be present on the message, so `\x7btype: "points_set_data"\x7d` with no
payload key leaves a non-empty points dataset untouched instead of
replacing it with the empty sequence; and a `tiles_set_data` payload is
not stored verbatim — its rows pass through the material normalizer. -/
theorem c8_set_data_counterexample :
    (handleMessage ⟨"points_set_data", none⟩
        (applyAcc "pointsData" (.arr [.obj [("id", .str "a")]] [])
          initState) =
      applyAcc "pointsData" (.arr [.obj [("id", .str "a")]] []) initState) ∧
    (applyAcc "pointsData" (.arr [.obj [("id", .str "a")]] [])
        initState).acc "pointsData" ≠ .arr [] [] ∧
    (handleMessage ⟨"tiles_set_data",
        some (.obj [("data", .arr
          [.obj [("material", .obj [("type", .str "MeshBasicMaterial")])]]
          [])])⟩ initState).acc "tilesData" ≠
      .arr [.obj [("material", .obj [("type", .str "MeshBasicMaterial")])]]
        [] := by
  refine ⟨rfl, by simp [applyAcc], ?_⟩
  rw [show (handleMessage ⟨"tiles_set_data",
      some (.obj [("data", .arr
        [.obj [("material", .obj [("type", .str "MeshBasicMaterial")])]]
        [])])⟩ initState).acc "tilesData" =
    .arr [.obj [("material", .material "MeshBasicMaterial" (.obj []))]] []
    from rfl]
  simp

/-- C8 amended: with the `payload` key present on the message (even
holding `null`), a `<layer>_set_data` message replaces the layer's
dataset wholesale — verbatim with `payload.data` for the eight plain
layers, through the layer's normalizer for tiles and particles — and
the replacement is the empty sequence whenever `payload.data` is absent
or null; a message without a `payload` key (other than the cache-clear
command) has no effect at all. -/
theorem c8_set_data_amended :
    (∀ (ty key : String), (ty, key) ∈ plainSetTable →
      ∀ (payload : JVal) (s : WState),
      handleMessage ⟨ty, some payload⟩ s =
        applyAcc key (dataArg payload) s) ∧
    (∀ payload : JVal, (payload.getField "data").isNullish = true →
      dataArg payload = .arr [] []) ∧
    (∀ (payload : JVal) (s : WState),
      handleMessage ⟨"tiles_set_data", some payload⟩ s =
        applyAcc "tilesData"
          (normalizeTilesData (payload.getField "data")) s) ∧
    (∀ (payload : JVal) (s : WState),
      handleMessage ⟨"particles_set_data", some payload⟩ s =
        applyAcc "particlesData"
          (normalizeParticlesData (payload.getField "data")) s) ∧
    (∀ (ty : String) (s : WState), ty ≠ "globe_tile_engine_clear_cache" →
      handleMessage ⟨ty, none⟩ s = s) := by
  refine ⟨?_, ?_, ?_, ?_, ?_⟩
  · intro ty key hmem payload s
    simp only [plainSetTable, List.mem_cons, List.not_mem_nil, or_false,
      Prod.mk.injEq] at hmem
    rcases hmem with ⟨h1, h2⟩ | ⟨h1, h2⟩ | ⟨h1, h2⟩ | ⟨h1, h2⟩ | ⟨h1, h2⟩ |
      ⟨h1, h2⟩ | ⟨h1, h2⟩ | ⟨h1, h2⟩ <;>
      subst h1 <;> subst h2 <;> simp [handleMessage, setPlainData]
  · intro payload h
    unfold dataArg JVal.orElse
    rw [if_pos h]
  · intro payload s
    simp [handleMessage]
  · intro payload s
    simp [handleMessage]
  · intro ty s hty
    simp [handleMessage, hty]

/-- C8 witness: an empty-payload `points_set_data` (payload key present,
`data` absent) clears the dataset, and the plain-layer dispatch lands on
`pointsData`. -/
theorem c8_set_data_amended_witness :
    handleMessage ⟨"points_set_data", some (.obj [])⟩ initState =
      applyAcc "pointsData" (.arr [] []) initState ∧
    dataArg (.obj []) = .arr [] [] := by
  constructor
  · rw [c8_set_data_amended.1 "points_set_data" "pointsData"
      (by simp [plainSetTable]) (.obj []) initState]
    rw [c8_set_data_amended.2.1 (.obj []) rfl]
  · exact c8_set_data_amended.2.1 (.obj []) rfl

/-- C1 counterexample: for the tiles layer the patched array is not
written back as-is — the setter passes it through `normalizeTilesData`,
so a patch merging a material spec onto a tile row stores a constructed
material where the claim's shallow-merge semantics would store the spec
object itself. -/
theorem c1_patch_data_counterexample :
    (handleMessage ⟨"tiles_patch_data",
        some (.obj [("patches", .arr
          [.obj [("id", .str "a"),
                 ("material", .obj [("type", .str "MeshBasicMaterial")])]]
          [])])⟩
      (applyAcc "tilesData" (.arr [.obj [("id", .str "a")]] [])
        initState)).acc "tilesData" ≠
      .arr (applyPatches [.obj [("id", .str "a")]]
        [.obj [("id", .str "a"),
               ("material", .obj [("type", .str "MeshBasicMaterial")])]])
        [] := by
  rw [show (handleMessage ⟨"tiles_patch_data",
      some (.obj [("patches", .arr
        [.obj [("id", .str "a"),
               ("material", .obj [("type", .str "MeshBasicMaterial")])]]
        [])])⟩
      (applyAcc "tilesData" (.arr [.obj [("id", .str "a")]] [])
        initState)).acc "tilesData" =
      .arr [.obj [("id", .str "a"),
        ("material", .material "MeshBasicMaterial" (.obj []))]] []
      from rfl]
  rw [show applyPatches [.obj [("id", .str "a")]]
      [.obj [("id", .str "a"),
             ("material", .obj [("type", .str "MeshBasicMaterial")])]] =
      [.obj [("id", .str "a"),
        ("material", .obj [("type", .str "MeshBasicMaterial")])]]
      from rfl]
  simp

/-- C1 amended: for every `<layer>_patch_data` message the layer's
current dataset is read from the globe, an identity index maps each
row's stringified id to its last occurrence (rows with absent or null
ids excluded and therefore unpatchable), object patches with a matching
non-null id shallow-merge onto the indexed row, unmatched patches are
dropped without error, the array's length and order are preserved and
rows not matched by any patch are unchanged; the patched array itself is
written back for the eight plain layers, while the tiles and particles
setters pass it through the layer's normalizer first.  On the dataset
`[\x7bid:"a",x:1\x7d,\x7bid:"b",x:2\x7d]` with patches
`[\x7bid:"b",x:9\x7d,\x7bid:"c",x:5\x7d]` the result is
`[\x7bid:"a",x:1\x7d,\x7bid:"b",x:9\x7d]`. -/
theorem c1_patch_data_amended :
    (∀ (d ps : List JVal), (applyPatches d ps).length = d.length) ∧
    (∀ (d ps : List JVal) (i : ℕ) (r : JVal), d[i]? = some r →
      rowKey r = none → (applyPatches d ps)[i]? = some r) ∧
    (∀ (d ps₁ ps₂ : List JVal) (p : JVal), patchTarget d p = none →
      applyPatches d (ps₁ ++ p :: ps₂) = applyPatches d (ps₁ ++ ps₂)) ∧
    (∀ (d ps : List JVal) (i : ℕ) (r : JVal), d[i]? = some r →
      (∀ p ∈ ps, patchTarget d p ≠ some i) →
      (applyPatches d ps)[i]? = some r) ∧
    (∀ (ty key : String), (ty, key) ∈ plainPatchTable →
      ∀ (payload : JVal) (s : WState),
      handleMessage ⟨ty, some payload⟩ s =
        applyAcc key (.arr (applyPatches (getDataArr s key).1
          (patchesArg payload)) (getDataArr s key).2) s) ∧
    (∀ (payload : JVal) (s : WState),
      handleMessage ⟨"tiles_patch_data", some payload⟩ s =
        applyAcc "tilesData" (normalizeTilesData
          (.arr (applyPatches (getDataArr s "tilesData").1
            (patchesArg payload)) (getDataArr s "tilesData").2)) s) ∧
    (∀ (payload : JVal) (s : WState),
      handleMessage ⟨"particles_patch_data", some payload⟩ s =
        applyAcc "particlesData" (normalizeParticlesData
          (.arr (applyPatches (getDataArr s "particlesData").1
            (patchesArg payload)) (getDataArr s "particlesData").2)) s) ∧
    applyPatches
        [.obj [("id", .str "a"), ("x", .num 1)],
         .obj [("id", .str "b"), ("x", .num 2)]]
        [.obj [("id", .str "b"), ("x", .num 9)],
         .obj [("id", .str "c"), ("x", .num 5)]] =
      [.obj [("id", .str "a"), ("x", .num 1)],
       .obj [("id", .str "b"), ("x", .num 9)]] := by
  have huntouched : ∀ (d ps : List JVal) (i : ℕ) (r : JVal),
      d[i]? = some r → (∀ p ∈ ps, patchTarget d p ≠ some i) →
      (applyPatches d ps)[i]? = some r := by
    intro d ps i r hget hno
    unfold applyPatches
    rw [foldl_patchStep_untouched d ps d i hno]
    exact hget
  refine ⟨fun d ps => foldl_patchStep_length d ps d, ?_,
    applyPatches_drop, huntouched, ?_, ?_, ?_, rfl⟩
  · intro d ps i r hget hkey
    apply huntouched d ps i r hget
    intro p hp htar
    obtain ⟨pid, r2, _, hget2, hkey2⟩ := patchTarget_indexed d p i htar
    rw [hget] at hget2
    cases hget2
    rw [hkey] at hkey2
    cases hkey2
  · intro ty key hmem payload s
    simp only [plainPatchTable, List.mem_cons, List.not_mem_nil, or_false,
      Prod.mk.injEq] at hmem
    rcases hmem with ⟨h1, h2⟩ | ⟨h1, h2⟩ | ⟨h1, h2⟩ | ⟨h1, h2⟩ | ⟨h1, h2⟩ |
      ⟨h1, h2⟩ | ⟨h1, h2⟩ | ⟨h1, h2⟩ <;>
      subst h1 <;> subst h2 <;> simp [handleMessage, patchPlainData]
  · intro payload s
    simp [handleMessage, patchNormData]
  · intro payload s
    simp [handleMessage, patchNormData]

/-- C1 witness: a concrete `points_patch_data` round trip — the dataset
of the specification example patched through the full message handler
yields the merged dataset, and a row without an id survives any patch
batch unchanged. -/
theorem c1_patch_data_amended_witness :
    handleMessage ⟨"points_patch_data",
        some (.obj [("patches", .arr
          [.obj [("id", .str "b"), ("x", .num 9)],
           .obj [("id", .str "c"), ("x", .num 5)]] [])])⟩
      (applyAcc "pointsData" (.arr
        [.obj [("id", .str "a"), ("x", .num 1)],
         .obj [("id", .str "b"), ("x", .num 2)]] []) initState) =
      applyAcc "pointsData" (.arr
        [.obj [("id", .str "a"), ("x", .num 1)],
         .obj [("id", .str "b"), ("x", .num 9)]] [])
        (applyAcc "pointsData" (.arr
          [.obj [("id", .str "a"), ("x", .num 1)],
           .obj [("id", .str "b"), ("x", .num 2)]] []) initState) ∧
    (applyPatches [.obj [("x", .num 7)]]
      [.obj [("id", .str "a"), ("x", .num 9)]])[0]? =
      some (.obj [("x", .num 7)]) := by
  constructor
  · rw [c1_patch_data_amended.2.2.2.2.1 "points_patch_data" "pointsData"
      (by simp [plainPatchTable]) _ _]
    rfl
  · exact c1_patch_data_amended.2.1 [.obj [("x", .num 7)]]
      [.obj [("id", .str "a"), ("x", .num 9)]] 0 (.obj [("x", .num 7)])
      rfl rfl

/-- C5 counterexample: an already-constructed material (isMaterial
marker true) configured as `globeMaterial` is NOT passed to the accessor
unchanged — `buildMaterial` has no marker check, sees the instance's
`type` property naming its own constructor, and re-constructs a fresh
default material, dropping the original's params. -/
theorem c5_material_counterexample :
    isMaterialVal
      (.material "MeshBasicMaterial" (.obj [("color", .str "red")])) =
        true ∧
    (applyConfig ⟨0, none, 0⟩ (some constructedMaterialConfig)
        initState).acc "globeMaterial" ≠
      .material "MeshBasicMaterial" (.obj [("color", .str "red")]) := by
  refine ⟨rfl, ?_⟩
  rw [applyConfig_acc, applyWritesF_eq, lastVal_configTable_globeMaterial]
  rw [show exMaterial (fun x => x.globe) (fun g => g.globeMaterial)
      (some constructedMaterialConfig) =
    some (.material "MeshBasicMaterial" (.obj [])) from rfl]
  simp

/-- C5 amended: already-constructed materials pass through unchanged
only where `materialFromSpec` runs — the tiles rows' `material` field;
the three direct material props (globeMaterial, polygonCapMaterial,
polygonSideMaterial, via configuration or prop message) route the value
through `buildMaterial` with no marker check, which resolves any
object-like value whose `type` stringifies to a library constructor name
into a newly constructed material (so a constructed material is
re-constructed from default params) and passes every other value
through. -/
theorem c5_material_resolution_amended :
    (∀ v : JVal, isMaterialVal v = true → materialFromSpec v = v) ∧
    (∀ (fields : List (String × JVal)) (m : JVal),
      fields.lookup "material" = some m → isMaterialVal m = true →
      normalizeTilesData (.arr [.obj fields] []) =
        .arr [.obj (setField fields "material" m)] []) ∧
    (∀ v : JVal, v.isObjectLike = true → v.hasField "type" = true →
      threeCtor ((v.getField "type").jsToString) = true →
      buildMaterial v = .material ((v.getField "type").jsToString)
        ((v.getField "params").orElse (.obj []))) ∧
    (∀ (env : ResizeEnv) (c : Option GlobeConfig) (s : WState) (m : JVal),
      ((c.bind fun x => x.globe).bind fun g => g.globeMaterial) = some m →
      (applyConfig env c s).acc "globeMaterial" = buildMaterial m) ∧
    (∀ (env : ResizeEnv) (c : Option GlobeConfig) (s : WState) (m : JVal),
      ((c.bind fun x => x.polygons).bind fun g => g.polygonCapMaterial) =
        some m →
      (applyConfig env c s).acc "polygonCapMaterial" = buildMaterial m) ∧
    (∀ (env : ResizeEnv) (c : Option GlobeConfig) (s : WState) (m : JVal),
      ((c.bind fun x => x.polygons).bind fun g => g.polygonSideMaterial) =
        some m →
      (applyConfig env c s).acc "polygonSideMaterial" = buildMaterial m) ∧
    (∀ (props : List String) (p : String) (v : JVal) (s : WState),
      p ∈ props → p ∈ materialProps →
      applyLayerProp props (.str p) v s =
        applyAcc p (buildMaterial v) s) := by
  have hpass : ∀ v : JVal, isMaterialVal v = true → materialFromSpec v = v := by
    intro v h
    have hobj : v.isObjectLike = true := by
      unfold isMaterialVal at h
      exact (Bool.and_eq_true_iff.mp
        ((Bool.and_eq_true_iff.mp h).1)).1
    have ht : v.isTruthy = true := by
      cases v <;> simp_all [JVal.isObjectLike, JVal.isTruthy]
    unfold materialFromSpec
    rw [ht]
    simp [h]
  refine ⟨hpass, ?_, ?_, ?_, ?_, ?_, ?_⟩
  · intro fields m hlook hmat
    unfold normalizeTilesData
    rw [show (JVal.arr [.obj fields] []).isTruthy = true from rfl]
    simp only [Bool.not_true, Bool.false_eq_true, if_false, List.map_cons,
      List.map_nil, hlook, Option.getD_some]
    rw [hpass m hmat]
  · intro v h1 h2 h3
    unfold buildMaterial
    rw [h1, h2]
    simp [h3]
  · intro env c s m hm
    rw [applyConfig_acc, applyWritesF_eq, lastVal_configTable_globeMaterial]
    unfold exMaterial
    rw [hm]
    rfl
  · intro env c s m hm
    rw [applyConfig_acc, applyWritesF_eq,
      lastVal_configTable_polygonCapMaterial]
    unfold exMaterial
    rw [hm]
    rfl
  · intro env c s m hm
    rw [applyConfig_acc, applyWritesF_eq,
      lastVal_configTable_polygonSideMaterial]
    unfold exMaterial
    rw [hm]
    rfl
  · intro props p v s hp hpm
    simp [applyLayerProp, hp, hpm]

/-- C5 witness: the tiles path keeps a constructed material (with its
params) intact, while the globeMaterial path re-resolves a descriptor
into a constructed material. -/
theorem c5_material_resolution_amended_witness :
    materialFromSpec
        (.material "MeshBasicMaterial" (.obj [("color", .str "red")])) =
      .material "MeshBasicMaterial" (.obj [("color", .str "red")]) ∧
    buildMaterial (.obj [("type", .str "MeshBasicMaterial"),
        ("params", .obj [("color", .str "red")])]) =
      .material "MeshBasicMaterial" (.obj [("color", .str "red")]) ∧
    (applyConfig ⟨0, none, 0⟩ (some constructedMaterialConfig)
        initState).acc "globeMaterial" =
      buildMaterial
        (.material "MeshBasicMaterial" (.obj [("color", .str "red")])) := by
  refine ⟨?_, ?_, ?_⟩
  · exact c5_material_resolution_amended.1 _ rfl
  · have h := c5_material_resolution_amended.2.2.1
      (.obj [("type", .str "MeshBasicMaterial"),
        ("params", .obj [("color", .str "red")])]) rfl rfl rfl
    rw [h]
    rfl
  · exact c5_material_resolution_amended.2.2.2.1 ⟨0, none, 0⟩
      (some constructedMaterialConfig) initState _ rfl

end PyGlobeGL
